import Mathlib

/-
Shallow embedding of `src/loader/LoaderInterface.py`.

The module is glue code over the Blender Python API (`bpy`): it assigns custom
properties, shading mode and materials to loaded objects, bakes object
transforms into meshes, removes the 90 degree X-axis rotation introduced by
`.obj` import, and moves object origins to the bottom mean point of their
bounding boxes.

Modelling decisions:
* Coordinates are exact rationals.  The Python code computes with floating
  point; every geometric property claimed of it is an exact arithmetic
  identity, which we verify over the exact semantics.
* Mesh vertices are tracked in world coordinates.  Consequently the host
  operator `transform_apply` (which bakes the object-level transform into the
  mesh while keeping world geometry fixed) resets the `location`,
  `rotation_euler` and `scale` attributes and leaves the world-coordinate
  vertices unchanged, and the edit-mode translate operator moves the vertices
  by its (global-orientation) value.
* The edit-mode rotate operator is only ever invoked by this module with
  `value = pi/2, orient_axis = X`; a quarter turn about the X axis is exact on
  rationals, `(x, y, z) -> (x, -z, y)`.
* Python exceptions propagate while leaving all mutations performed so far in
  place; operations that can raise therefore return their (possibly partially
  updated) state together with an `Option String` error.
* Every host-operator invocation is also recorded in an event trace, carrying
  the interaction mode that was current when the operator ran; temporal claims
  are stated over this trace.
* The `objects` argument of each helper is modelled as a list of indices into
  the scene's object list (the Python code iterates over references to scene
  objects).
-/

namespace LoaderIface

/-- A 3-vector of exact rational coordinates. -/
structure Vec3 where
  x : ℚ
  y : ℚ
  z : ℚ
deriving DecidableEq, Repr

def Vec3.add (a b : Vec3) : Vec3 := ⟨a.x + b.x, a.y + b.y, a.z + b.z⟩

def Vec3.zero : Vec3 := ⟨0, 0, 0⟩

def Vec3.one : Vec3 := ⟨1, 1, 1⟩

/-- One polygon (face) of a mesh; `use_smooth` is the Blender per-face flag. -/
structure Polygon where
  index : Nat
  use_smooth : Bool
deriving DecidableEq, Repr

/-- Mesh datablock: faces and (world-coordinate) vertex positions. -/
structure MeshData where
  polygons : List Polygon
  vertices : List Vec3
deriving DecidableEq, Repr

/-- A scene resource (`bpy.types.ID`, possibly a `bpy.types.Object`).
`isObject` models `isinstance(obj, bpy.types.Object)`, `hasTypeAttr` models
`hasattr(obj, "type")`, `props` is the insertion-ordered custom-property
mapping (`obj[key] = value`), `active_material` stores the name of the
assigned material datablock. -/
structure Obj where
  name : String
  isObject : Bool
  hasTypeAttr : Bool
  objType : String
  location : Vec3
  rotation_euler : Vec3
  scale : Vec3
  selected : Bool
  active_material : Option String
  props : List (String × String)
  data : MeshData
deriving DecidableEq, Repr

/-- The scene: the object list, the names present in `bpy.data.materials`,
`bpy.context.view_layer.objects.active`, and the current interaction mode. -/
structure Scene where
  objects : List Obj
  materials : List String
  active : Option Nat
  mode : String
deriving DecidableEq, Repr

/-- Configuration read by `_set_properties`. `add_properties` is the raw dict
in insertion order; the `cf_*` parameters are absent or present. -/
structure Config where
  add_properties : List (String × String)
  cf_set_shading : Option String
  cf_set_obj_material : Option String
  cf_apply_transformation : Option Bool
deriving DecidableEq, Repr

/-- Trace events: one per host-operator invocation.  Transform operators also
record the interaction mode that was current when they were invoked. -/
inductive Event where
  | selectAll (action : String)
  | selectSet (i : Nat) (b : Bool)
  | setActive (i : Nat)
  | modeSet (m : String)
  | transformApply (location rotation scale : Bool) (modeAt : String)
  | transformRotate (modeAt : String)
  | transformTranslate (v : Vec3) (modeAt : String)
  | viewLayerUpdate
deriving DecidableEq, Repr

/- Exception messages raised by the module (verbatim from the source, with the
format placeholder spliced at its position). -/

def propErrMsg : String :=
  "Loader modules support setting only custom properties. Use \x27cp_\x27 prefix for keys. Use manipulators.Entity for setting object\x27s attribute values."

def shadingErrMsg (mode : String) : String :=
  "This shading mode is unknown: " ++ mode

def materialErrMsg (name : String) : String :=
  "Material " ++ name ++ " is not Loaded. Please load the material first"

/- Python string primitives used by the module, modelled on the character
list of the string (extensionally the same as `key.startswith`, `key[3:]`
and `mode.lower()` on the strings involved, and kernel-computable). -/

def strStartsWith (s p : String) : Bool := p.data.isPrefixOf s.data

def strDrop (s : String) (n : Nat) : String := ⟨s.data.drop n⟩

def strLower (s : String) : String := ⟨s.data.map Char.toLower⟩

/- Custom-property assignment (`obj[key] = value`): insertion-ordered
association-list update. -/

def assocSet : List (String × String) → String → String → List (String × String)
  | [], k, v => [(k, v)]
  | (k', v') :: rest, k, v =>
      if k' = k then (k, v) :: rest else (k', v') :: assocSet rest k v

def assocGet : List (String × String) → String → Option String
  | [], _ => none
  | (k', v') :: rest, k => if k' = k then some v' else assocGet rest k

def setProp (o : Obj) (k v : String) : Obj :=
  { o with props := assocSet o.props k v }

/-- The property loop of `_set_properties` (lines 55-63): for each `(key,
value)` of `add_properties`, if `key` starts with `"cp_"` assign
`obj[key[3:]] = value`, otherwise raise `RuntimeError`.  The returned object
keeps the assignments made before the raise. -/
def setCustomProps : List (String × String) → Obj → Obj × Option String
  | [], o => (o, none)
  | (key, value) :: rest, o =>
      if strStartsWith key "cp_" then
        setCustomProps rest (setProp o (strDrop key 3) value)
      else
        (o, some propErrMsg)

/- Shading and material helpers. -/

def setShading (b : Bool) (o : Obj) : Obj :=
  { o with data := { o.data with
      polygons := o.data.polygons.map (fun p => { p with use_smooth := b }) } }

/-- `LoaderInterface.change_shading_mode` (lines 97-114): raise unless the
lower-cased mode is `"flat"` or `"smooth"`, otherwise set `use_smooth` on
every polygon of every object. -/
def change_shading_mode (objs : List Obj) (mode : String) : List Obj × Option String :=
  if strLower mode = "flat" then
    (objs.map (setShading false), none)
  else if strLower mode = "smooth" then
    (objs.map (setShading true), none)
  else
    (objs, some (shadingErrMsg mode))

/-- `LoaderInterface.change_material` (lines 116-132): raise if the material
name is not among the loaded materials, otherwise set `active_material` of
every object to the datablock of that name. -/
def change_material (materials : List String) (objs : List Obj) (material_name : String) :
    List Obj × Option String :=
  if material_name ∈ materials then
    (objs.map (fun o => { o with active_material := some material_name }), none)
  else
    (objs, some (materialErrMsg material_name))

/- Host (`bpy`) operators, modelled by their documented effect on the scene. -/

def updateAt : List Obj → Nat → (Obj → Obj) → List Obj
  | [], _, _ => []
  | o :: rest, 0, f => f o :: rest
  | o :: rest, n + 1, f => o :: updateAt rest n f

def deselectObj (o : Obj) : Obj := { o with selected := false }

/-- `bpy.ops.object.select_all(action="DESELECT")`. -/
def select_all_deselect (s : Scene) : Scene :=
  { s with objects := s.objects.map deselectObj }

/-- `obj.select_set(b)` for the object at index `i`. -/
def select_set (s : Scene) (i : Nat) (b : Bool) : Scene :=
  { s with objects := updateAt s.objects i (fun o => { o with selected := b }) }

/-- `bpy.context.view_layer.objects.active = obj`. -/
def set_active (s : Scene) (i : Nat) : Scene :=
  { s with active := some i }

/-- `bpy.ops.object.mode_set(mode=m)`. -/
def mode_set (s : Scene) (m : String) : Scene :=
  { s with mode := m }

/-- `obj.rotation_euler = r` for the object at index `i`. -/
def set_rotation_euler (s : Scene) (i : Nat) (r : Vec3) : Scene :=
  { s with objects := updateAt s.objects i (fun o => { o with rotation_euler := r }) }

/-- `bpy.ops.object.transform_apply(location=True, rotation=True, scale=True)`:
for every selected object, bake the object-level transform into the mesh
(world-coordinate vertices are unchanged) and reset the transform attributes
to their initial values. -/
def transform_apply (s : Scene) : Scene :=
  { s with objects := s.objects.map (fun o =>
      if o.selected then
        { o with location := Vec3.zero, rotation_euler := Vec3.zero, scale := Vec3.one }
      else o) }

def rotateQuarterX (v : Vec3) : Vec3 := ⟨v.x, -v.z, v.y⟩

def rotateMeshQuarterX (o : Obj) : Obj :=
  { o with data := { o.data with vertices := o.data.vertices.map rotateQuarterX } }

/-- `bpy.ops.transform.rotate(value=np.pi * 0.5, orient_axis="X")` in edit
mode: rotate the edited (active) object's mesh a quarter turn about X. -/
def transform_rotate_quarterX (s : Scene) : Scene :=
  match s.active with
  | some i => { s with objects := updateAt s.objects i rotateMeshQuarterX }
  | none => s

def translateMesh (t : Vec3) (o : Obj) : Obj :=
  { o with data := { o.data with vertices := o.data.vertices.map (fun v => Vec3.add v t) } }

/-- `bpy.ops.transform.translate(value=t)` in edit mode: move the edited
(active) object's mesh by `t` (global orientation). -/
def transform_translate (s : Scene) (t : Vec3) : Scene :=
  match s.active with
  | some i => { s with objects := updateAt s.objects i (translateMesh t) }
  | none => s

/- Bounding boxes. -/

def qMin (a : ℚ) (l : List ℚ) : ℚ := l.foldl min a

def qMax (a : ℚ) (l : List ℚ) : ℚ := l.foldl max a

/-- Modelled from the spec: the bounding-box computation `get_bounds` lives in
the external utility collaborator `src/utility/BlenderUtility.py`, which is not
part of this file's source; per the spec it returns the (8-corner) bounding box
of the object.  We model it as the eight corner points of the world-space
axis-aligned bounding box of the object's mesh vertices (the empty list for an
empty mesh). -/
def get_bounds (o : Obj) : List Vec3 :=
  match o.data.vertices with
  | [] => []
  | v :: vs =>
      let x0 := qMin v.x (vs.map Vec3.x)
      let x1 := qMax v.x (vs.map Vec3.x)
      let y0 := qMin v.y (vs.map Vec3.y)
      let y1 := qMax v.y (vs.map Vec3.y)
      let z0 := qMin v.z (vs.map Vec3.z)
      let z1 := qMax v.z (vs.map Vec3.z)
      [⟨x0, y0, z0⟩, ⟨x0, y0, z1⟩, ⟨x0, y1, z0⟩, ⟨x0, y1, z1⟩,
       ⟨x1, y0, z0⟩, ⟨x1, y0, z1⟩, ⟨x1, y1, z0⟩, ⟨x1, y1, z1⟩]

/-- `np.mean(bb, axis=0)[0]`: mean of the X coordinates. -/
def bbMeanX (bb : List Vec3) : ℚ := (bb.map Vec3.x).sum / bb.length

/-- `np.mean(bb, axis=0)[1]`: mean of the Y coordinates. -/
def bbMeanY (bb : List Vec3) : ℚ := (bb.map Vec3.y).sum / bb.length

/-- `np.min(bb, axis=0)[2]`: minimum of the Z coordinates. -/
def bbMinZ (bb : List Vec3) : ℚ :=
  match bb with
  | [] => 0
  | v :: vs => qMin v.z (vs.map Vec3.z)

/- The three static transform helpers.  Each is a fold of a per-object step
over the index list, between the surrounding host calls; each step returns the
new scene and the trace of host-operator invocations it performed. -/

def runSteps (step : Scene → Nat → Scene × List Event) : Scene → List Nat → Scene × List Event
  | s, [] => (s, [])
  | s, i :: rest =>
      let r1 := step s i
      let r2 := runSteps step r1.1 rest
      (r2.1, r1.2 ++ r2.2)

/-- Loop body of `apply_transformation_to_objects` (lines 90-94). -/
def applyTransformationStep (s : Scene) (i : Nat) : Scene × List Event :=
  let s1 := select_set s i true
  let s2 := set_active s1 i
  let s3 := transform_apply s2
  let s4 := select_set s3 i false
  (s4, [Event.selectSet i true, Event.setActive i,
        Event.transformApply true true true s2.mode, Event.selectSet i false])

/-- `LoaderInterface.apply_transformation_to_objects` (lines 81-95). -/
def apply_transformation_to_objects (s : Scene) (idxs : List Nat) : Scene × List Event :=
  let s0 := select_all_deselect s
  let r := runSteps applyTransformationStep s0 idxs
  (select_all_deselect r.1,
   Event.selectAll "DESELECT" :: r.2 ++ [Event.selectAll "DESELECT"])

/-- Loop body of `remove_x_axis_rotation` (lines 143-152). -/
def removeXStep (s : Scene) (i : Nat) : Scene × List Event :=
  let s1 := select_set s i true
  let s2 := set_active s1 i
  let s3 := set_rotation_euler s2 i Vec3.zero
  let s4 := mode_set s3 "EDIT"
  let s5 := transform_rotate_quarterX s4
  let s6 := mode_set s5 "OBJECT"
  let s7 := select_set s6 i false
  (s7, [Event.selectSet i true, Event.setActive i, Event.modeSet "EDIT",
        Event.transformRotate s4.mode, Event.modeSet "OBJECT",
        Event.selectSet i false])

/-- `LoaderInterface.remove_x_axis_rotation` (lines 134-153). -/
def remove_x_axis_rotation (s : Scene) (idxs : List Nat) : Scene × List Event :=
  let s0 := select_all_deselect s
  let r := runSteps removeXStep s0 idxs
  (r.1, Event.selectAll "DESELECT" :: r.2 ++ [Event.viewLayerUpdate])

/-- Loop body of `move_obj_origin_to_bottom_mean_point` (lines 164-175): the
bounding box is obtained via the external collaborator `get_bounds` and the
mesh is translated by `[-mean_x(bb), -mean_y(bb), -min_z(bb)]` in edit mode.
(The `none` branch is unreachable when the indices reference scene objects, as
the Python iteration over object references guarantees.) -/
def moveOriginStep (s : Scene) (i : Nat) : Scene × List Event :=
  let s1 := select_set s i true
  let s2 := set_active s1 i
  match s2.objects.get? i with
  | none =>
      (select_set s2 i false,
       [Event.selectSet i true, Event.setActive i, Event.selectSet i false])
  | some obj =>
      let bb := get_bounds obj
      let t : Vec3 := ⟨-(bbMeanX bb), -(bbMeanY bb), -(bbMinZ bb)⟩
      let s3 := mode_set s2 "EDIT"
      let s4 := transform_translate s3 t
      let s5 := mode_set s4 "OBJECT"
      let s6 := select_set s5 i false
      (s6, [Event.selectSet i true, Event.setActive i, Event.modeSet "EDIT",
            Event.transformTranslate t s3.mode, Event.modeSet "OBJECT",
            Event.selectSet i false])

/-- `LoaderInterface.move_obj_origin_to_bottom_mean_point` (lines 155-176). -/
def move_obj_origin_to_bottom_mean_point (s : Scene) (idxs : List Nat) : Scene × List Event :=
  let s0 := select_all_deselect s
  let r := runSteps moveOriginStep s0 idxs
  (r.1, Event.selectAll "DESELECT" :: r.2 ++ [Event.viewLayerUpdate])

/- `_set_properties`. -/

/-- The `cf_set_shading` / `cf_set_obj_material` branch of `_set_properties`
(lines 66-73), entered only for mesh objects; each helper is invoked on the
singleton list `[obj]`. -/
def applyShadingMaterial (cfg : Config) (materials : List String) (o : Obj) :
    Obj × Option String :=
  if o.hasTypeAttr && (o.objType = "MESH") then
    let r1 :=
      match cfg.cf_set_shading with
      | some mode =>
          let r := change_shading_mode [o] mode
          (r.1.headD o, r.2)
      | none => (o, none)
    match r1.2 with
    | some e => (r1.1, some e)
    | none =>
        match cfg.cf_set_obj_material with
        | some material_name =>
            let r := change_material materials [r1.1] material_name
            (r.1.headD r1.1, r.2)
        | none => (r1.1, none)
  else (o, none)

/-- Body of the object loop of `_set_properties` (lines 55-79) for the object
at index `i`: custom-property assignment, then the shading/material branch for
mesh objects, then (for `bpy.types.Object` instances) transform application
when `cf_apply_transformation` (default `False`) is set. -/
def setPropertiesStep (cfg : Config) (s : Scene) (i : Nat) : Scene × List Event × Option String :=
  match s.objects.get? i with
  | none => (s, [], none)
  | some o =>
      let r1 := setCustomProps cfg.add_properties o
      let s1 : Scene := { s with objects := updateAt s.objects i (fun _ => r1.1) }
      match r1.2 with
      | some e => (s1, [], some e)
      | none =>
          let r2 := applyShadingMaterial cfg s1.materials r1.1
          let s2 : Scene := { s1 with objects := updateAt s1.objects i (fun _ => r2.1) }
          match r2.2 with
          | some e => (s2, [], some e)
          | none =>
              if r2.1.isObject then
                if cfg.cf_apply_transformation.getD false then
                  let r3 := apply_transformation_to_objects s2 [i]
                  (r3.1, r3.2, none)
                else (s2, [], none)
              else (s2, [], none)

/-- `LoaderInterface._set_properties` (lines 38-79): the object loop, with an
exception propagating immediately and leaving prior mutations in place. -/
def set_properties (cfg : Config) : Scene → List Nat → Scene × List Event × Option String
  | s, [] => (s, [], none)
  | s, i :: rest =>
      let r1 := setPropertiesStep cfg s i
      match r1.2.2 with
      | some e => (r1.1, r1.2.1, some e)
      | none =>
          let r2 := set_properties cfg r1.1 rest
          (r2.1, r1.2.1 ++ r2.2.1, r2.2.2)

/- Infrastructure lemmas. -/

theorem updateAt_get? (l : List Obj) (f : Obj → Obj) :
    ∀ i j, (updateAt l i f).get? j = if i = j then (l.get? j).map f else l.get? j := by
  induction l with
  | nil => intro i j; cases i <;> cases j <;> simp [updateAt]
  | cons o rest ih =>
      intro i j
      cases i with
      | zero => cases j <;> simp [updateAt]
      | succ n =>
          cases j with
          | zero => simp [updateAt]
          | succ m => simpa [updateAt, Nat.succ_inj] using ih n m

theorem updateAt_length (l : List Obj) (f : Obj → Obj) :
    ∀ i, (updateAt l i f).length = l.length := by
  induction l with
  | nil => intro i; cases i <;> simp [updateAt]
  | cons o rest ih => intro i; cases i <;> simp [updateAt, ih]

theorem updateAt_updateAt (l : List Obj) (f g : Obj → Obj) :
    ∀ i, updateAt (updateAt l i f) i g = updateAt l i (fun o => g (f o)) := by
  induction l with
  | nil => intro i; cases i <;> simp [updateAt]
  | cons o rest ih => intro i; cases i <;> simp [updateAt, ih]

theorem updateAt_const (l : List Obj) (f : Obj → Obj) :
    ∀ i o, l.get? i = some o → updateAt l i (fun _ => f o) = updateAt l i f := by
  induction l with
  | nil => intro i o h; simp at h
  | cons a rest ih =>
      intro i o h
      cases i with
      | zero =>
          injection h with h2
          subst h2
          simp [updateAt]
      | succ n => simp [updateAt, ih n o h]

/- Generic lemmas about the per-object loops. -/

section RunSteps

variable (step : Scene → Nat → Scene × List Event)

theorem runSteps_preserve (P : Scene → Prop)
    (hstep : ∀ s i, P s → P (step s i).1) :
    ∀ (idxs : List Nat) (s : Scene), P s → P (runSteps step s idxs).1 := by
  intro idxs
  induction idxs with
  | nil => intro s h; simpa [runSteps] using h
  | cons i rest ih => intro s h; simpa [runSteps] using ih (step s i).1 (hstep s i h)

theorem runSteps_events (Pe : Event → Prop)
    (hstep : ∀ s i, ∀ e ∈ (step s i).2, Pe e) :
    ∀ (idxs : List Nat) (s : Scene), ∀ e ∈ (runSteps step s idxs).2, Pe e := by
  intro idxs
  induction idxs with
  | nil => intro s e he; simp [runSteps] at he
  | cons i rest ih =>
      intro s e he
      simp only [runSteps, List.mem_append] at he
      rcases he with he | he
      · exact hstep s i e he
      · exact ih (step s i).1 e he

theorem runSteps_events_mem (ev ev' : Nat → Event)
    (hstep : ∀ s i, ev i ∈ (step s i).2 ∧ ev' i ∈ (step s i).2) :
    ∀ (idxs : List Nat) (s : Scene), ∀ i ∈ idxs,
      ev i ∈ (runSteps step s idxs).2 ∧ ev' i ∈ (runSteps step s idxs).2 := by
  intro idxs
  induction idxs with
  | nil => intro s i hi; simp at hi
  | cons j rest ih =>
      intro s i hi
      simp only [runSteps, List.mem_append]
      rcases List.mem_cons.mp hi with h | h
      · subst h; exact ⟨Or.inl (hstep s i).1, Or.inl (hstep s i).2⟩
      · exact ⟨Or.inr (ih (step s j).1 i h).1, Or.inr (ih (step s j).1 i h).2⟩

theorem runSteps_mode
    (hstep : ∀ s i, (step s i).1.mode = "OBJECT") :
    ∀ (idxs : List Nat) (s : Scene), idxs ≠ [] →
      (runSteps step s idxs).1.mode = "OBJECT" := by
  intro idxs
  induction idxs with
  | nil => intro s h; exact absurd rfl h
  | cons i rest ih =>
      intro s _
      cases rest with
      | nil => simpa [runSteps] using hstep s i
      | cons j rest' => simpa [runSteps] using ih (step s i).1 (by simp)

variable (R Q : Scene → Nat → Prop)

theorem runSteps_R
    (hR : ∀ s i j, R s j → R (step s i).1 j) :
    ∀ (idxs : List Nat) (s : Scene), (∀ j, R s j) → ∀ j, R (runSteps step s idxs).1 j := by
  intro idxs
  induction idxs with
  | nil => intro s h j; simpa [runSteps] using h j
  | cons i rest ih =>
      intro s h j
      simpa [runSteps] using ih (step s i).1 (fun j' => hR s i j' (h j')) j

theorem runSteps_Q_keep
    (hR : ∀ s i j, R s j → R (step s i).1 j)
    (hE : ∀ s i, R s i → Q (step s i).1 i)
    (hQp : ∀ s i j, i ≠ j → Q s j → Q (step s i).1 j) :
    ∀ (idxs : List Nat) (s : Scene) (i : Nat), (∀ j, R s j) → Q s i →
      Q (runSteps step s idxs).1 i := by
  intro idxs
  induction idxs with
  | nil => intro s i _ hq; simpa [runSteps] using hq
  | cons j rest ih =>
      intro s i hRs hq
      simp only [runSteps]
      by_cases hji : j = i
      · subst hji
        exact ih (step s j).1 j (fun j' => hR s j j' (hRs j')) (hE s j (hRs j))
      · exact ih (step s j).1 i (fun j' => hR s j j' (hRs j')) (hQp s j i hji hq)

theorem runSteps_Q_estab
    (hR : ∀ s i j, R s j → R (step s i).1 j)
    (hE : ∀ s i, R s i → Q (step s i).1 i)
    (hQp : ∀ s i j, i ≠ j → Q s j → Q (step s i).1 j) :
    ∀ (idxs : List Nat) (s : Scene) (i : Nat), (∀ j, R s j) → i ∈ idxs →
      Q (runSteps step s idxs).1 i := by
  intro idxs
  induction idxs with
  | nil => intro s i _ hi; simp at hi
  | cons j rest ih =>
      intro s i hRs hi
      rcases List.mem_cons.mp hi with h | h
      · subst h
        simp only [runSteps]
        exact runSteps_Q_keep step R Q hR hE hQp rest (step s i).1 i
          (fun j' => hR s i j' (hRs j')) (hE s i (hRs i))
      · simp only [runSteps]
        exact ih (step s j).1 i (fun j' => hR s j j' (hRs j')) h

end RunSteps

/- Bounding-box arithmetic. -/

theorem qMin_le_self (l : List ℚ) : ∀ a, qMin a l ≤ a := by
  induction l with
  | nil => intro a; simp [qMin]
  | cons x xs ih =>
      intro a
      calc qMin a (x :: xs) = qMin (min a x) xs := rfl
        _ ≤ min a x := ih (min a x)
        _ ≤ a := min_le_left a x

theorem self_le_qMax (l : List ℚ) : ∀ a, a ≤ qMax a l := by
  induction l with
  | nil => intro a; simp [qMax]
  | cons x xs ih =>
      intro a
      calc a ≤ max a x := le_max_left a x
        _ ≤ qMax (max a x) xs := ih (max a x)
        _ = qMax a (x :: xs) := rfl

theorem qMin_map_add (l : List ℚ) (c : ℚ) :
    ∀ a, qMin (a + c) (l.map (fun q => q + c)) = qMin a l + c := by
  induction l with
  | nil => intro a; simp [qMin]
  | cons x xs ih =>
      intro a
      calc qMin (a + c) ((x :: xs).map (fun q => q + c))
          = qMin (min (a + c) (x + c)) (xs.map (fun q => q + c)) := rfl
        _ = qMin (min a x + c) (xs.map (fun q => q + c)) := by rw [min_add_add_right]
        _ = qMin (min a x) xs + c := ih (min a x)
        _ = qMin a (x :: xs) + c := rfl

theorem qMax_map_add (l : List ℚ) (c : ℚ) :
    ∀ a, qMax (a + c) (l.map (fun q => q + c)) = qMax a l + c := by
  induction l with
  | nil => intro a; simp [qMax]
  | cons x xs ih =>
      intro a
      calc qMax (a + c) ((x :: xs).map (fun q => q + c))
          = qMax (max (a + c) (x + c)) (xs.map (fun q => q + c)) := rfl
        _ = qMax (max a x + c) (xs.map (fun q => q + c)) := by rw [max_add_add_right]
        _ = qMax (max a x) xs + c := ih (max a x)
        _ = qMax a (x :: xs) + c := rfl

/-- The vector `[-mean_x(bb), -mean_y(bb), -min_z(bb)]` computed by
`move_obj_origin_to_bottom_mean_point` from `bb = get_bounds(obj)`. -/
def moveVec (o : Obj) : Vec3 :=
  ⟨-(bbMeanX (get_bounds o)), -(bbMeanY (get_bounds o)), -(bbMinZ (get_bounds o))⟩

/-- Bounding box after the translation: the mean of the X and Y coordinates is
at the origin and the minimum Z coordinate is 0. -/
def centered (o : Obj) : Prop :=
  bbMeanX (get_bounds o) = 0 ∧ bbMeanY (get_bounds o) = 0 ∧ bbMinZ (get_bounds o) = 0

theorem translateMesh_vertices (t : Vec3) (o : Obj) :
    (translateMesh t o).data.vertices = o.data.vertices.map (fun v => Vec3.add v t) := rfl

theorem get_bounds_translateMesh (t : Vec3) (o : Obj) :
    get_bounds (translateMesh t o) = (get_bounds o).map (fun v => Vec3.add v t) := by
  rcases o with ⟨n, io, ht, ty, loc, rot, sc, sel, am, pr, ⟨polys, verts⟩⟩
  cases verts with
  | nil => simp [get_bounds, translateMesh]
  | cons v vs =>
      show get_bounds ⟨n, io, ht, ty, loc, rot, sc, sel, am, pr,
        ⟨polys, (v :: vs).map (fun w => Vec3.add w t)⟩⟩ = _
      have hmx : qMin (v.x + t.x) (List.map (fun w : Vec3 => w.x + t.x) vs)
          = qMin v.x (List.map Vec3.x vs) + t.x := by
        rw [show List.map (fun w : Vec3 => w.x + t.x) vs
              = (vs.map Vec3.x).map (fun q => q + t.x) by simp]
        exact qMin_map_add _ _ _
      have hMx : qMax (v.x + t.x) (List.map (fun w : Vec3 => w.x + t.x) vs)
          = qMax v.x (List.map Vec3.x vs) + t.x := by
        rw [show List.map (fun w : Vec3 => w.x + t.x) vs
              = (vs.map Vec3.x).map (fun q => q + t.x) by simp]
        exact qMax_map_add _ _ _
      have hmy : qMin (v.y + t.y) (List.map (fun w : Vec3 => w.y + t.y) vs)
          = qMin v.y (List.map Vec3.y vs) + t.y := by
        rw [show List.map (fun w : Vec3 => w.y + t.y) vs
              = (vs.map Vec3.y).map (fun q => q + t.y) by simp]
        exact qMin_map_add _ _ _
      have hMy : qMax (v.y + t.y) (List.map (fun w : Vec3 => w.y + t.y) vs)
          = qMax v.y (List.map Vec3.y vs) + t.y := by
        rw [show List.map (fun w : Vec3 => w.y + t.y) vs
              = (vs.map Vec3.y).map (fun q => q + t.y) by simp]
        exact qMax_map_add _ _ _
      have hmz : qMin (v.z + t.z) (List.map (fun w : Vec3 => w.z + t.z) vs)
          = qMin v.z (List.map Vec3.z vs) + t.z := by
        rw [show List.map (fun w : Vec3 => w.z + t.z) vs
              = (vs.map Vec3.z).map (fun q => q + t.z) by simp]
        exact qMin_map_add _ _ _
      have hMz : qMax (v.z + t.z) (List.map (fun w : Vec3 => w.z + t.z) vs)
          = qMax v.z (List.map Vec3.z vs) + t.z := by
        rw [show List.map (fun w : Vec3 => w.z + t.z) vs
              = (vs.map Vec3.z).map (fun q => q + t.z) by simp]
        exact qMax_map_add _ _ _
      simp only [get_bounds, List.map_cons, List.map_map, Function.comp_def, Vec3.add]
      simp [hmx, hMx, hmy, hMy, hmz, hMz]

theorem sum_map_shift (bb : List Vec3) (f g : Vec3 → ℚ) (c : ℚ)
    (hfg : ∀ v, f v = g v + c) :
    (bb.map f).sum = (bb.map g).sum + bb.length * c := by
  induction bb with
  | nil => simp
  | cons v vs ih =>
      simp only [List.map_cons, List.sum_cons, List.length_cons, ih, hfg v]
      push_cast
      ring

theorem get_bounds_ne_nil (o : Obj) (h : o.data.vertices ≠ []) : get_bounds o ≠ [] := by
  rcases o with ⟨n, io, ht, ty, loc, rot, sc, sel, am, pr, ⟨polys, verts⟩⟩
  cases verts with
  | nil => exact absurd rfl h
  | cons v vs => simp [get_bounds]

theorem bbMeanX_map_add (bb : List Vec3) (t : Vec3) (hbb : bb ≠ []) :
    bbMeanX (bb.map fun v => Vec3.add v t) = bbMeanX bb + t.x := by
  have hlen : (bb.length : ℚ) ≠ 0 := by
    have h0 := List.length_pos.mpr hbb
    exact_mod_cast h0.ne'
  have hsum := sum_map_shift bb (fun v => (Vec3.add v t).x) Vec3.x t.x
    (fun v => by simp [Vec3.add])
  simp only [bbMeanX, List.map_map, List.length_map]
  rw [show List.map (Vec3.x ∘ fun v => Vec3.add v t) bb
        = List.map (fun v => (Vec3.add v t).x) bb from rfl, hsum]
  field_simp
  ring

theorem bbMeanY_map_add (bb : List Vec3) (t : Vec3) (hbb : bb ≠ []) :
    bbMeanY (bb.map fun v => Vec3.add v t) = bbMeanY bb + t.y := by
  have hlen : (bb.length : ℚ) ≠ 0 := by
    have h0 := List.length_pos.mpr hbb
    exact_mod_cast h0.ne'
  have hsum := sum_map_shift bb (fun v => (Vec3.add v t).y) Vec3.y t.y
    (fun v => by simp [Vec3.add])
  simp only [bbMeanY, List.map_map, List.length_map]
  rw [show List.map (Vec3.y ∘ fun v => Vec3.add v t) bb
        = List.map (fun v => (Vec3.add v t).y) bb from rfl, hsum]
  field_simp
  ring

theorem bbMinZ_map_add (bb : List Vec3) (t : Vec3) (hbb : bb ≠ []) :
    bbMinZ (bb.map fun v => Vec3.add v t) = bbMinZ bb + t.z := by
  cases bb with
  | nil => exact absurd rfl hbb
  | cons v vs =>
      simp only [bbMinZ, List.map_cons, List.map_map]
      rw [show List.map (Vec3.z ∘ fun v => Vec3.add v t) vs
            = (vs.map Vec3.z).map (fun q => q + t.z) by simp [Function.comp, Vec3.add]]
      exact qMin_map_add _ _ _

/-- The attribute reset performed by the host's `transform_apply` on a
selected object. -/
def resetTransform (o : Obj) : Obj :=
  { o with location := Vec3.zero, rotation_euler := Vec3.zero, scale := Vec3.one }

/- Characterization of the three loop bodies. -/

theorem updateAt_getElem? (l : List Obj) (f : Obj → Obj) (i j : Nat) :
    (updateAt l i f)[j]? = if i = j then (l[j]?).map f else l[j]? := by
  have h := updateAt_get? l f i j
  simpa [List.get?_eq_getElem?] using h

theorem applyTransformationStep_get?_self (s : Scene) (i : Nat) (o : Obj)
    (h : s.objects.get? i = some o) :
    (applyTransformationStep s i).1.objects.get? i =
      some { o with location := Vec3.zero, rotation_euler := Vec3.zero,
                    scale := Vec3.one, selected := false } := by
  have h2 : s.objects[i]? = some o := by simpa [List.get?_eq_getElem?] using h
  simp [applyTransformationStep, select_set, set_active, transform_apply,
    List.get?_eq_getElem?, updateAt_getElem?, h2]

theorem applyTransformationStep_get?_other (s : Scene) (i j : Nat) (hij : i ≠ j) :
    (applyTransformationStep s i).1.objects.get? j =
      (s.objects.get? j).map (fun o => if o.selected then resetTransform o else o) := by
  simp [applyTransformationStep, select_set, set_active, transform_apply,
    List.get?_eq_getElem?, updateAt_getElem?, hij, resetTransform]

theorem applyTransformationStep_events (s : Scene) (i : Nat) :
    (applyTransformationStep s i).2 =
      [Event.selectSet i true, Event.setActive i,
       Event.transformApply true true true s.mode, Event.selectSet i false] := rfl

theorem removeXStep_get?_self (s : Scene) (i : Nat) (o : Obj)
    (h : s.objects.get? i = some o) :
    (removeXStep s i).1.objects.get? i =
      some { o with rotation_euler := Vec3.zero, selected := false,
                    data := { o.data with
                      vertices := o.data.vertices.map rotateQuarterX } } := by
  have h2 : s.objects[i]? = some o := by simpa [List.get?_eq_getElem?] using h
  simp [removeXStep, select_set, set_active, set_rotation_euler, mode_set,
    transform_rotate_quarterX, rotateMeshQuarterX, List.get?_eq_getElem?,
    updateAt_getElem?, h2]

theorem removeXStep_get?_other (s : Scene) (i j : Nat) (hij : i ≠ j) :
    (removeXStep s i).1.objects.get? j = s.objects.get? j := by
  simp [removeXStep, select_set, set_active, set_rotation_euler, mode_set,
    transform_rotate_quarterX, List.get?_eq_getElem?, updateAt_getElem?, hij]

theorem removeXStep_mode (s : Scene) (i : Nat) : (removeXStep s i).1.mode = "OBJECT" := rfl

theorem removeXStep_events (s : Scene) (i : Nat) :
    (removeXStep s i).2 =
      [Event.selectSet i true, Event.setActive i, Event.modeSet "EDIT",
       Event.transformRotate "EDIT", Event.modeSet "OBJECT",
       Event.selectSet i false] := rfl

theorem moveOriginStep_scrutinee (s : Scene) (i : Nat) :
    (set_active (select_set s i true) i).objects.get? i =
      (s.objects.get? i).map (fun o => { o with selected := true }) := by
  simp [set_active, select_set, List.get?_eq_getElem?, updateAt_getElem?]

theorem moveOriginStep_some (s : Scene) (i : Nat) (o : Obj)
    (h : s.objects.get? i = some o) :
    moveOriginStep s i =
      (select_set
        (mode_set
          (transform_translate
            (mode_set (set_active (select_set s i true) i) "EDIT")
            (moveVec o))
          "OBJECT") i false,
       [Event.selectSet i true, Event.setActive i, Event.modeSet "EDIT",
        Event.transformTranslate (moveVec o) "EDIT", Event.modeSet "OBJECT",
        Event.selectSet i false]) := by
  have hs := moveOriginStep_scrutinee s i
  rw [h] at hs
  simp only [moveOriginStep, hs]
  rfl

theorem moveOriginStep_none (s : Scene) (i : Nat)
    (h : s.objects.get? i = none) :
    moveOriginStep s i =
      (select_set (set_active (select_set s i true) i) i false,
       [Event.selectSet i true, Event.setActive i, Event.selectSet i false]) := by
  have hs := moveOriginStep_scrutinee s i
  rw [h] at hs
  simp only [moveOriginStep, hs]
  rfl

theorem moveOriginStep_get?_self (s : Scene) (i : Nat) (o : Obj)
    (h : s.objects.get? i = some o) :
    (moveOriginStep s i).1.objects.get? i =
      some { translateMesh (moveVec o) o with selected := false } := by
  rw [moveOriginStep_some s i o h]
  simp [select_set, mode_set, transform_translate, set_active, translateMesh,
    List.get?_eq_getElem?, updateAt_getElem?,
    show s.objects[i]? = some o by simpa [List.get?_eq_getElem?] using h]

theorem moveOriginStep_get?_other (s : Scene) (i j : Nat) (hij : i ≠ j) :
    (moveOriginStep s i).1.objects.get? j = s.objects.get? j := by
  cases h : s.objects.get? i with
  | none =>
      rw [moveOriginStep_none s i h]
      simp [select_set, set_active, List.get?_eq_getElem?, updateAt_getElem?, hij]
  | some o =>
      rw [moveOriginStep_some s i o h]
      simp [select_set, mode_set, transform_translate, set_active,
        List.get?_eq_getElem?, updateAt_getElem?, hij]

theorem moveOriginStep_mode_of_some (s : Scene) (i : Nat) (o : Obj)
    (h : s.objects.get? i = some o) :
    (moveOriginStep s i).1.mode = "OBJECT" := by
  rw [moveOriginStep_some s i o h]
  rfl

/- Concrete sample data for witnesses. -/

def sampleMesh : MeshData := ⟨[⟨0, false⟩], [⟨0, 0, 0⟩, ⟨2, 0, 2⟩]⟩

def sampleObj : Obj :=
  ⟨"obj", true, true, "MESH", Vec3.zero, Vec3.zero, Vec3.one, false, none, [], sampleMesh⟩

def sampleScene : Scene := ⟨[sampleObj], ["steel"], none, "OBJECT"⟩

/-- C1: `change_material(objects, material_name)` raises an exception if and
only if `material_name` is not among the loaded materials
(`bpy.data.materials`); when no exception is raised, the `active_material` of
every object in `objects` is set to the material datablock named
`material_name`; in the error case no object's material is changed. -/
theorem C1_change_material (materials : List String) (objs : List Obj)
    (material_name : String) :
    ((change_material materials objs material_name).2 ≠ none ↔
      material_name ∉ materials) ∧
    (material_name ∈ materials →
      (change_material materials objs material_name).1 =
        objs.map (fun o => { o with active_material := some material_name })) ∧
    (material_name ∉ materials →
      (change_material materials objs material_name).1 = objs) := by
  by_cases h : material_name ∈ materials <;> simp [change_material, h]

theorem C1_witness :
    (change_material ["steel"] [sampleObj] "steel").2 = none ∧
    (change_material ["steel"] [sampleObj] "steel").1 =
      [{ sampleObj with active_material := some "steel" }] ∧
    (change_material ["steel"] [sampleObj] "wood").2 ≠ none ∧
    (change_material ["steel"] [sampleObj] "wood").1 = [sampleObj] := by
  have h1 := C1_change_material ["steel"] [sampleObj] "steel"
  have h2 := C1_change_material ["steel"] [sampleObj] "wood"
  refine ⟨?_, ?_, ?_, ?_⟩
  · have hne : ¬((change_material ["steel"] [sampleObj] "steel").2 ≠ none) :=
      fun hcontra => (h1.1.mp hcontra) (by decide)
    exact not_not.mp hne
  · simpa using h1.2.1 (by decide)
  · exact h2.1.mpr (by decide)
  · exact h2.2.2 (by decide)

/-- C2: `change_shading_mode(objects, mode)` raises an exception if and only
if `mode`, compared case-insensitively, is neither `"FLAT"` nor `"SMOOTH"`;
when no exception is raised, every polygon of every object's mesh data gets
`use_smooth = True` exactly when the mode is (case-insensitively) `"SMOOTH"`
and `False` exactly when it is `"FLAT"`. -/
theorem C2_change_shading_mode (objs : List Obj) (mode : String) :
    ((change_shading_mode objs mode).2 ≠ none ↔
      (strLower mode ≠ "flat" ∧ strLower mode ≠ "smooth")) ∧
    ((change_shading_mode objs mode).2 = none →
      ∀ o ∈ (change_shading_mode objs mode).1, ∀ p ∈ o.data.polygons,
        (p.use_smooth = true ↔ strLower mode = "smooth")) := by
  by_cases hf : strLower mode = "flat"
  · constructor
    · simp [change_shading_mode, hf]
    · intro _ o ho p hp
      simp only [change_shading_mode, if_pos hf] at ho
      simp only [List.mem_map] at ho
      obtain ⟨o0, _, rfl⟩ := ho
      simp only [setShading, List.mem_map] at hp
      obtain ⟨p0, _, rfl⟩ := hp
      simp [hf]
  · by_cases hs : strLower mode = "smooth"
    · constructor
      · simp [change_shading_mode, hf, hs]
      · intro _ o ho p hp
        simp only [change_shading_mode, if_neg hf, if_pos hs] at ho
        simp only [List.mem_map] at ho
        obtain ⟨o0, _, rfl⟩ := ho
        simp only [setShading, List.mem_map] at hp
        obtain ⟨p0, _, rfl⟩ := hp
        simp [hs]
    · constructor
      · simp [change_shading_mode, hf, hs]
      · intro hnone
        simp [change_shading_mode, hf, hs] at hnone

theorem C2_witness :
    (((Polygon.mk 0 true).use_smooth = true ↔ strLower "SMOOTH" = "smooth") ∧
      (change_shading_mode [sampleObj] "SMOOTH").2 = none) ∧
    (change_shading_mode [sampleObj] "Gouraud").2 ≠ none := by
  have h1 := C2_change_shading_mode [sampleObj] "SMOOTH"
  have h2 := C2_change_shading_mode [sampleObj] "Gouraud"
  refine ⟨⟨?_, ?_⟩, ?_⟩
  · exact h1.2 (by decide) (setShading true sampleObj) (by decide) ⟨0, true⟩ (by decide)
  · decide
  · exact h2.1.mpr (by decide)

/- Lemmas about the custom-property loop. -/

theorem assocGet_assocSet (k v k0 : String) :
    ∀ ps, assocGet (assocSet ps k v) k0 = if k = k0 then some v else assocGet ps k0 := by
  intro ps
  induction ps with
  | nil => by_cases h : k = k0 <;> simp [assocSet, assocGet, h]
  | cons p rest ih =>
      obtain ⟨k1, v1⟩ := p
      by_cases h1 : k1 = k
      · subst h1
        by_cases h0 : k1 = k0 <;> simp [assocSet, assocGet, h0]
      · by_cases h0 : k = k0
        · subst h0
          simp [assocSet, assocGet, h1, ih]
        · simp only [assocSet, if_neg h1]
          by_cases h2 : k1 = k0 <;> simp [assocGet, h2, ih, h0]

theorem setCustomProps_ok (props : List (String × String)) (o : Obj)
    (h : ∀ p ∈ props, strStartsWith p.1 "cp_" = true) :
    (setCustomProps props o).2 = none := by
  induction props generalizing o with
  | nil => rfl
  | cons p rest ih =>
      obtain ⟨k, v⟩ := p
      have hk : strStartsWith k "cp_" = true := h (k, v) (by simp)
      simp only [setCustomProps, if_pos hk]
      exact ih (setProp o (strDrop k 3) v) (fun q hq => h q (by simp [hq]))

theorem setCustomProps_bad (props : List (String × String)) (o : Obj)
    (h : ∃ p ∈ props, strStartsWith p.1 "cp_" = false) :
    (setCustomProps props o).2 = some propErrMsg := by
  induction props generalizing o with
  | nil => simp at h
  | cons p rest ih =>
      obtain ⟨k, v⟩ := p
      by_cases hk : strStartsWith k "cp_" = true
      · have hrest : ∃ p ∈ rest, strStartsWith p.1 "cp_" = false := by
          rcases h with ⟨q, hq, hqbad⟩
          rcases List.mem_cons.mp hq with rfl | hq2
          · rw [hk] at hqbad; cases hqbad
          · exact ⟨q, hq2, hqbad⟩
        simp only [setCustomProps, if_pos hk]
        exact ih (setProp o (strDrop k 3) v) hrest
      · simp only [setCustomProps, if_neg hk]

theorem setCustomProps_untouched (props : List (String × String)) (o : Obj) (k0 : String)
    (h : k0 ∉ props.map (fun p => strDrop p.1 3)) :
    assocGet ((setCustomProps props o).1).props k0 = assocGet o.props k0 := by
  induction props generalizing o with
  | nil => rfl
  | cons p rest ih =>
      obtain ⟨k, v⟩ := p
      simp only [List.map_cons, List.mem_cons] at h
      push_neg at h
      by_cases hk : strStartsWith k "cp_" = true
      · simp only [setCustomProps, if_pos hk]
        rw [ih (setProp o (strDrop k 3) v) h.2]
        simp only [setProp, assocGet_assocSet]
        rw [if_neg (fun hc => h.1 hc.symm)]
      · simp only [setCustomProps, if_neg hk]

theorem setCustomProps_lookup (props : List (String × String)) (o : Obj)
    (hgood : ∀ p ∈ props, strStartsWith p.1 "cp_" = true)
    (hnodup : (props.map (fun p => strDrop p.1 3)).Nodup) :
    ∀ p ∈ props, assocGet ((setCustomProps props o).1).props (strDrop p.1 3) = some p.2 := by
  induction props generalizing o with
  | nil => intro p hp; simp at hp
  | cons q rest ih =>
      obtain ⟨k, v⟩ := q
      have hk : strStartsWith k "cp_" = true := hgood (k, v) (by simp)
      simp only [List.map_cons, List.nodup_cons] at hnodup
      intro p hp
      rcases List.mem_cons.mp hp with rfl | hp2
      · simp only [setCustomProps, if_pos hk]
        rw [setCustomProps_untouched rest (setProp o (strDrop k 3) v) _ hnodup.1]
        simp [setProp, assocGet_assocSet]
      · simp only [setCustomProps, if_pos hk]
        exact ih (setProp o (strDrop k 3) v)
          (fun q' hq' => hgood q' (by simp [hq'])) hnodup.2 p hp2

theorem setCustomProps_append_bad (good : List (String × String)) (k v : String)
    (rest : List (String × String)) (o : Obj)
    (hgood : ∀ p ∈ good, strStartsWith p.1 "cp_" = true)
    (hbad : strStartsWith k "cp_" = false) :
    setCustomProps (good ++ (k, v) :: rest) o = ((setCustomProps good o).1, some propErrMsg) := by
  induction good generalizing o with
  | nil => simp [setCustomProps, hbad]
  | cons q tl ih =>
      obtain ⟨k1, v1⟩ := q
      have hk1 : strStartsWith k1 "cp_" = true := hgood (k1, v1) (by simp)
      simp only [List.cons_append, setCustomProps, if_pos hk1]
      exact ih (setProp o (strDrop k1 3) v1) (fun q' hq' => hgood q' (by simp [hq']))

/- Lemmas about `_set_properties` as a whole. -/

/-- A configuration carrying only `add_properties` (no optional `cf_*`
parameter is present; `cf_apply_transformation` therefore defaults to
`False`). -/
def plainCfg (props : List (String × String)) : Config := ⟨props, none, none, none⟩

theorem applyShadingMaterial_none_none (cfg : Config)
    (hs : cfg.cf_set_shading = none) (hm : cfg.cf_set_obj_material = none)
    (materials : List String) (o : Obj) :
    applyShadingMaterial cfg materials o = (o, none) := by
  unfold applyShadingMaterial
  rw [hs, hm]
  split <;> rfl

theorem setPropertiesStep_plain_get?_self (props : List (String × String))
    (s : Scene) (i : Nat) (o : Obj) (h : s.objects.get? i = some o) :
    (setPropertiesStep (plainCfg props) s i).1.objects.get? i =
      some ((setCustomProps props o).1) := by
  have h2 : s.objects[i]? = some o := by simpa [List.get?_eq_getElem?] using h
  cases herr : (setCustomProps props o).2 with
  | some e =>
      simp [setPropertiesStep, h, plainCfg, herr,
        List.get?_eq_getElem?, updateAt_getElem?, h2]
  | none =>
      simp [setPropertiesStep, h, plainCfg, herr, applyShadingMaterial_none_none,
        List.get?_eq_getElem?, updateAt_getElem?, updateAt_updateAt, h2]

theorem setPropertiesStep_plain_get?_other (props : List (String × String))
    (s : Scene) (i j : Nat) (hij : i ≠ j) :
    (setPropertiesStep (plainCfg props) s i).1.objects.get? j = s.objects.get? j := by
  cases h : s.objects.get? i with
  | none => unfold setPropertiesStep; rw [h]
  | some o =>
      have h2 : s.objects[i]? = some o := by simpa [List.get?_eq_getElem?] using h
      cases herr : (setCustomProps props o).2 with
      | some e =>
          simp [setPropertiesStep, h2, plainCfg, herr,
            List.get?_eq_getElem?, updateAt_getElem?, hij]
      | none =>
          simp [setPropertiesStep, h2, plainCfg, herr, applyShadingMaterial_none_none,
            List.get?_eq_getElem?, updateAt_getElem?, updateAt_updateAt, hij]

theorem setPropertiesStep_plain_err (props : List (String × String))
    (s : Scene) (i : Nat) (o : Obj) (h : s.objects.get? i = some o) :
    (setPropertiesStep (plainCfg props) s i).2.2 = (setCustomProps props o).2 := by
  have h2 : s.objects[i]? = some o := by simpa [List.get?_eq_getElem?] using h
  cases herr : (setCustomProps props o).2 with
  | some e => simp [setPropertiesStep, h2, plainCfg, herr]
  | none =>
      simp [setPropertiesStep, h2, plainCfg, herr, applyShadingMaterial_none_none]

theorem setPropertiesStep_plain_err_none (props : List (String × String))
    (s : Scene) (i : Nat) (hgood : ∀ p ∈ props, strStartsWith p.1 "cp_" = true) :
    (setPropertiesStep (plainCfg props) s i).2.2 = none := by
  cases h : s.objects.get? i with
  | none => unfold setPropertiesStep; rw [h]
  | some o => rw [setPropertiesStep_plain_err props s i o h, setCustomProps_ok props o hgood]

theorem set_properties_plain_err_none (props : List (String × String))
    (hgood : ∀ p ∈ props, strStartsWith p.1 "cp_" = true) :
    ∀ (idxs : List Nat) (s : Scene),
      (set_properties (plainCfg props) s idxs).2.2 = none := by
  intro idxs
  induction idxs with
  | nil => intro s; rfl
  | cons i rest ih =>
      intro s
      simp only [set_properties]
      rw [setPropertiesStep_plain_err_none props s i hgood]
      simp only
      exact ih (setPropertiesStep (plainCfg props) s i).1

theorem set_properties_plain_Q_keep (props : List (String × String))
    (hgood : ∀ p ∈ props, strStartsWith p.1 "cp_" = true)
    (hnodup : (props.map (fun p => strDrop p.1 3)).Nodup) :
    ∀ (idxs : List Nat) (s : Scene) (i : Nat),
      (∀ o, s.objects.get? i = some o →
        ∀ p ∈ props, assocGet o.props (strDrop p.1 3) = some p.2) →
      ∀ o2, (set_properties (plainCfg props) s idxs).1.objects.get? i = some o2 →
        ∀ p ∈ props, assocGet o2.props (strDrop p.1 3) = some p.2 := by
  intro idxs
  induction idxs with
  | nil => intro s i hq o2 h2; exact hq o2 h2
  | cons j rest ih =>
      intro s i hq o2 h2
      simp only [set_properties, setPropertiesStep_plain_err_none props s j hgood] at h2
      refine ih (setPropertiesStep (plainCfg props) s j).1 i ?_ o2 h2
      intro o3 h3
      by_cases hji : j = i
      · subst hji
        cases hsj : s.objects.get? j with
        | none =>
            have hstep : (setPropertiesStep (plainCfg props) s j).1 = s := by
              unfold setPropertiesStep; rw [hsj]
            rw [hstep, hsj] at h3
            cases h3
        | some o0 =>
            rw [setPropertiesStep_plain_get?_self props s j o0 hsj] at h3
            injection h3 with h3
            subst h3
            exact setCustomProps_lookup props o0 hgood hnodup
      · rw [setPropertiesStep_plain_get?_other props s j i hji] at h3
        exact hq o3 h3

theorem get?_isSome_of_lt (l : List Obj) : ∀ i, i < l.length → ∃ o, l.get? i = some o := by
  induction l with
  | nil => intro i h; simp at h
  | cons a rest ih =>
      intro i h
      cases i with
      | zero => exact ⟨a, rfl⟩
      | succ n => exact ih n (by simpa using h)

theorem setPropertiesStep_plain_length (props : List (String × String))
    (s : Scene) (i : Nat) :
    (setPropertiesStep (plainCfg props) s i).1.objects.length = s.objects.length := by
  cases h : s.objects.get? i with
  | none => unfold setPropertiesStep; rw [h]
  | some o =>
      have h2 : s.objects[i]? = some o := by simpa [List.get?_eq_getElem?] using h
      cases herr : (setCustomProps props o).2 with
      | some e => simp [setPropertiesStep, h2, plainCfg, herr, updateAt_length]
      | none =>
          simp [setPropertiesStep, h2, plainCfg, herr, applyShadingMaterial_none_none,
            updateAt_length]

theorem set_properties_plain_length (props : List (String × String)) :
    ∀ (idxs : List Nat) (s : Scene),
      (set_properties (plainCfg props) s idxs).1.objects.length = s.objects.length := by
  intro idxs
  induction idxs with
  | nil => intro s; rfl
  | cons i rest ih =>
      intro s
      simp only [set_properties]
      cases herr : (setPropertiesStep (plainCfg props) s i).2.2 with
      | some e => simpa using setPropertiesStep_plain_length props s i
      | none =>
          simp only
          rw [ih (setPropertiesStep (plainCfg props) s i).1,
            setPropertiesStep_plain_length props s i]

theorem set_properties_plain_Q_estab (props : List (String × String))
    (hgood : ∀ p ∈ props, strStartsWith p.1 "cp_" = true)
    (hnodup : (props.map (fun p => strDrop p.1 3)).Nodup) :
    ∀ (idxs : List Nat) (s : Scene) (i : Nat), i ∈ idxs → i < s.objects.length →
      ∀ o2, (set_properties (plainCfg props) s idxs).1.objects.get? i = some o2 →
        ∀ p ∈ props, assocGet o2.props (strDrop p.1 3) = some p.2 := by
  intro idxs
  induction idxs with
  | nil => intro s i hi; simp at hi
  | cons j rest ih =>
      intro s i hi hlt o2 h2
      simp only [set_properties, setPropertiesStep_plain_err_none props s j hgood] at h2
      rcases List.mem_cons.mp hi with rfl | hmem
      · obtain ⟨o, ho⟩ := get?_isSome_of_lt s.objects i hlt
        refine set_properties_plain_Q_keep props hgood hnodup rest
          (setPropertiesStep (plainCfg props) s i).1 i ?_ o2 h2
        intro o3 h3
        rw [setPropertiesStep_plain_get?_self props s i o ho] at h3
        injection h3 with h3
        subst h3
        exact setCustomProps_lookup props o hgood hnodup
      · exact ih (setPropertiesStep (plainCfg props) s j).1 i hmem
          (by rw [setPropertiesStep_plain_length props s j]; exact hlt) o2 h2

/-- C3: `_set_properties(objects)`, for every object in `objects` and every
`(key, value)` pair of the configured `add_properties` dictionary whose key
starts with `"cp_"`, assigns the custom property named `key` with the `"cp_"`
prefix removed to `value` on that object; for any key that does not start
with `"cp_"` it raises a `RuntimeError` (as soon as an object is processed). -/
theorem C3_set_properties_add_properties (props : List (String × String)) (o : Obj)
    (s : Scene) (idxs : List Nat) :
    ((∀ p ∈ props, strStartsWith p.1 "cp_" = true) →
      (setCustomProps props o).2 = none ∧
      ((props.map (fun p => strDrop p.1 3)).Nodup →
        ∀ p ∈ props, assocGet ((setCustomProps props o).1).props (strDrop p.1 3) = some p.2)) ∧
    ((∃ p ∈ props, strStartsWith p.1 "cp_" = false) →
      (setCustomProps props o).2 = some propErrMsg) ∧
    ((∀ p ∈ props, strStartsWith p.1 "cp_" = true) →
      (props.map (fun p => strDrop p.1 3)).Nodup →
      (∀ i ∈ idxs, i < s.objects.length) →
      (set_properties (plainCfg props) s idxs).2.2 = none ∧
      ∀ i ∈ idxs, ∃ o2,
        (set_properties (plainCfg props) s idxs).1.objects.get? i = some o2 ∧
        ∀ p ∈ props, assocGet o2.props (strDrop p.1 3) = some p.2) ∧
    ((∃ p ∈ props, strStartsWith p.1 "cp_" = false) →
      ∀ i, i < s.objects.length →
        (set_properties (plainCfg props) s (i :: idxs)).2.2 = some propErrMsg) := by
  refine ⟨?_, ?_, ?_, ?_⟩
  · intro hgood
    exact ⟨setCustomProps_ok props o hgood,
      fun hnodup => setCustomProps_lookup props o hgood hnodup⟩
  · intro hbad
    exact setCustomProps_bad props o hbad
  · intro hgood hnodup hvalid
    refine ⟨set_properties_plain_err_none props hgood idxs s, ?_⟩
    intro i hi
    obtain ⟨o2, ho2⟩ := get?_isSome_of_lt
      (set_properties (plainCfg props) s idxs).1.objects i
      (by rw [set_properties_plain_length props idxs s]; exact hvalid i hi)
    exact ⟨o2, ho2,
      set_properties_plain_Q_estab props hgood hnodup idxs s i hi (hvalid i hi) o2 ho2⟩
  · intro hbad i hlt
    obtain ⟨o0, ho0⟩ := get?_isSome_of_lt s.objects i hlt
    have herr : (setPropertiesStep (plainCfg props) s i).2.2 = some propErrMsg := by
      rw [setPropertiesStep_plain_err props s i o0 ho0]
      exact setCustomProps_bad props o0 hbad
    simp [set_properties, herr]

theorem C3_witness :
    ((setCustomProps [("cp_category", "chair")] sampleObj).2 = none ∧
      assocGet ((setCustomProps [("cp_category", "chair")] sampleObj).1).props
        "category" = some "chair") ∧
    (setCustomProps [("bad", "1")] sampleObj).2 = some propErrMsg ∧
    (set_properties (plainCfg [("cp_category", "chair")]) sampleScene [0]).2.2 = none ∧
    (set_properties (plainCfg [("bad", "1")]) sampleScene [0]).2.2 = some propErrMsg := by
  have h1 := C3_set_properties_add_properties [("cp_category", "chair")] sampleObj sampleScene [0]
  have h2 := C3_set_properties_add_properties [("bad", "1")] sampleObj sampleScene []
  have hg : ∀ p ∈ [(("cp_category" : String), ("chair" : String))],
      strStartsWith p.1 "cp_" = true := by decide
  have hbad : ∃ p ∈ [(("bad" : String), ("1" : String))],
      strStartsWith p.1 "cp_" = false := by decide
  refine ⟨⟨(h1.1 hg).1, ?_⟩, h2.2.1 hbad, ?_, ?_⟩
  · have := (h1.1 hg).2 (by decide) ("cp_category", "chair") (by decide)
    simpa using this
  · exact (h1.2.2.1 hg (by decide) (by decide)).1
  · exact h2.2.2.2 hbad 0 (by decide)

/-- C10: `_set_properties` is not atomic on error: with
`add_properties = good ++ (k, v) :: rest2` where every key of `good` has the
`"cp_"` prefix and `k` does not, the `RuntimeError` is raised only when `k` is
reached, every custom property assigned for the earlier keys of the same
object remains assigned, and already-processed state is not rolled back
(the scene keeps the partial assignments; other objects keep their state). -/
theorem C10_set_properties_not_atomic (good : List (String × String)) (k v : String)
    (rest2 : List (String × String)) (o : Obj) (s : Scene) (i : Nat) (js : List Nat)
    (hgood : ∀ p ∈ good, strStartsWith p.1 "cp_" = true)
    (hbad : strStartsWith k "cp_" = false)
    (hnodup : (good.map (fun p => strDrop p.1 3)).Nodup)
    (h : s.objects.get? i = some o) :
    setCustomProps (good ++ (k, v) :: rest2) o =
      ((setCustomProps good o).1, some propErrMsg) ∧
    (∀ p ∈ good, assocGet ((setCustomProps good o).1).props (strDrop p.1 3) = some p.2) ∧
    (set_properties (plainCfg (good ++ (k, v) :: rest2)) s (i :: js)).2.2 =
      some propErrMsg ∧
    (set_properties (plainCfg (good ++ (k, v) :: rest2)) s (i :: js)).1.objects.get? i =
      some ((setCustomProps good o).1) ∧
    (∀ j, i ≠ j →
      (set_properties (plainCfg (good ++ (k, v) :: rest2)) s (i :: js)).1.objects.get? j =
        s.objects.get? j) := by
  have happ := setCustomProps_append_bad good k v rest2 o hgood hbad
  have herr : (setPropertiesStep (plainCfg (good ++ (k, v) :: rest2)) s i).2.2 =
      some propErrMsg := by
    rw [setPropertiesStep_plain_err _ s i o h, happ]
  refine ⟨happ, setCustomProps_lookup good o hgood hnodup, ?_, ?_, ?_⟩
  · simp [set_properties, herr]
  · have hself := setPropertiesStep_plain_get?_self (good ++ (k, v) :: rest2) s i o h
    rw [happ] at hself
    have hself2 : (setPropertiesStep (plainCfg (good ++ (k, v) :: rest2)) s i).1.objects[i]? =
        some (setCustomProps good o).1 := by
      simpa [List.get?_eq_getElem?] using hself
    simp [set_properties, herr, hself2]
  · intro j hij
    have hother := setPropertiesStep_plain_get?_other (good ++ (k, v) :: rest2) s i j hij
    have hother2 : (setPropertiesStep (plainCfg (good ++ (k, v) :: rest2)) s i).1.objects[j]? =
        s.objects[j]? := by
      simpa [List.get?_eq_getElem?] using hother
    simp [set_properties, herr, hother2]

theorem C10_witness :
    setCustomProps [("cp_a", "1"), ("bad", "2"), ("cp_c", "3")] sampleObj =
      ((setCustomProps [("cp_a", "1")] sampleObj).1, some propErrMsg) ∧
    assocGet ((setCustomProps [("cp_a", "1")] sampleObj).1).props "a" = some "1" ∧
    (set_properties (plainCfg [("cp_a", "1"), ("bad", "2"), ("cp_c", "3")])
      sampleScene [0]).2.2 = some propErrMsg := by
  have h := C10_set_properties_not_atomic [("cp_a", "1")] "bad" "2" [("cp_c", "3")]
    sampleObj sampleScene 0 [] (by decide) (by decide) (by decide) (by decide)
  refine ⟨h.1, ?_, h.2.2.1⟩
  have := h.2.1 ("cp_a", "1") (by decide)
  simpa using this

/- Error classification for C4. -/

theorem setCustomProps_err_cases (props : List (String × String)) (o : Obj) :
    (setCustomProps props o).2 = none ∨ (setCustomProps props o).2 = some propErrMsg := by
  induction props generalizing o with
  | nil => exact Or.inl rfl
  | cons p rest ih =>
      obtain ⟨k, v⟩ := p
      by_cases hk : strStartsWith k "cp_" = true
      · simp only [setCustomProps, if_pos hk]
        exact ih (setProp o (strDrop k 3) v)
      · simp [setCustomProps, hk]

theorem change_shading_mode_err_cases (objs : List Obj) (mode : String) :
    (change_shading_mode objs mode).2 = none ∨
    (change_shading_mode objs mode).2 = some (shadingErrMsg mode) := by
  by_cases h1 : strLower mode = "flat"
  · simp [change_shading_mode, h1]
  · by_cases h2 : strLower mode = "smooth" <;> simp [change_shading_mode, h1, h2]

theorem change_material_err_cases (materials : List String) (objs : List Obj)
    (material_name : String) :
    (change_material materials objs material_name).2 = none ∨
    (change_material materials objs material_name).2 =
      some (materialErrMsg material_name) := by
  by_cases h1 : material_name ∈ materials <;> simp [change_material, h1]

/-- Predicate: the message is one of the module's three guard exceptions. -/
def guardMsg (e : String) : Prop :=
  e = propErrMsg ∨ (∃ m, e = shadingErrMsg m) ∨ (∃ n, e = materialErrMsg n)

theorem applyShadingMaterial_err_cases (cfg : Config) (materials : List String) (o : Obj) :
    ∀ e, (applyShadingMaterial cfg materials o).2 = some e → guardMsg e := by
  intro e he
  by_cases ht : (o.hasTypeAttr && decide (o.objType = "MESH")) = true
  · cases hs : cfg.cf_set_shading with
    | some mode =>
        rcases change_shading_mode_err_cases [o] mode with hnone | hsome
        · cases hm : cfg.cf_set_obj_material with
          | some matname =>
              rcases change_material_err_cases materials
                  [(change_shading_mode [o] mode).1.headD o] matname with h2 | h2
              all_goals simp at h2
              · simp [applyShadingMaterial, ht, hs, hnone, hm, h2] at he
              · simp [applyShadingMaterial, ht, hs, hnone, hm, h2] at he
                exact Or.inr (Or.inr ⟨matname, he.symm⟩)
          | none => simp [applyShadingMaterial, ht, hs, hnone, hm] at he
        · simp [applyShadingMaterial, ht, hs, hsome] at he
          exact Or.inr (Or.inl ⟨mode, he.symm⟩)
    | none =>
        cases hm : cfg.cf_set_obj_material with
        | some matname =>
            rcases change_material_err_cases materials [o] matname with h2 | h2
            · simp [applyShadingMaterial, ht, hs, hm, h2] at he
            · simp [applyShadingMaterial, ht, hs, hm, h2] at he
              exact Or.inr (Or.inr ⟨matname, he.symm⟩)
        | none => simp [applyShadingMaterial, ht, hs, hm] at he
  · simp [applyShadingMaterial, ht] at he

/- Further characterization lemmas for the loop bodies. -/

theorem applyTransformationStep_get?_none (s : Scene) (i : Nat)
    (h : s.objects.get? i = none) :
    (applyTransformationStep s i).1.objects.get? i = none := by
  have h2 : s.objects[i]? = none := by simpa [List.get?_eq_getElem?] using h
  simp [applyTransformationStep, select_set, set_active, transform_apply,
    List.get?_eq_getElem?, updateAt_getElem?, h2]

theorem removeXStep_get?_none (s : Scene) (i : Nat)
    (h : s.objects.get? i = none) :
    (removeXStep s i).1.objects.get? i = none := by
  have h2 : s.objects[i]? = none := by simpa [List.get?_eq_getElem?] using h
  simp [removeXStep, select_set, set_active, set_rotation_euler, mode_set,
    transform_rotate_quarterX, List.get?_eq_getElem?, updateAt_getElem?, h2]

theorem moveOriginStep_get?_none (s : Scene) (i : Nat)
    (h : s.objects.get? i = none) :
    (moveOriginStep s i).1.objects.get? i = none := by
  have h2 : s.objects[i]? = none := by simpa [List.get?_eq_getElem?] using h
  rw [moveOriginStep_none s i h]
  simp [select_set, set_active, List.get?_eq_getElem?, updateAt_getElem?, h2]

theorem applyTransformationStep_length (s : Scene) (i : Nat) :
    (applyTransformationStep s i).1.objects.length = s.objects.length := by
  simp [applyTransformationStep, select_set, set_active, transform_apply, updateAt_length]

theorem removeXStep_length (s : Scene) (i : Nat) :
    (removeXStep s i).1.objects.length = s.objects.length := by
  simp [removeXStep, select_set, set_active, set_rotation_euler, mode_set,
    transform_rotate_quarterX, updateAt_length]

theorem moveOriginStep_length (s : Scene) (i : Nat) :
    (moveOriginStep s i).1.objects.length = s.objects.length := by
  cases h : s.objects.get? i with
  | none =>
      rw [moveOriginStep_none s i h]
      simp [select_set, set_active, updateAt_length]
  | some o =>
      rw [moveOriginStep_some s i o h]
      simp [select_set, set_active, mode_set, transform_translate, updateAt_length]

theorem moveOriginStep_selectSet_mem (s : Scene) (i : Nat) :
    Event.selectSet i true ∈ (moveOriginStep s i).2 ∧
    Event.selectSet i false ∈ (moveOriginStep s i).2 := by
  cases h : s.objects.get? i with
  | none => rw [moveOriginStep_none s i h]; simp
  | some o => rw [moveOriginStep_some s i o h]; simp

theorem select_all_deselect_get? (s : Scene) (j : Nat) :
    (select_all_deselect s).objects.get? j = (s.objects.get? j).map deselectObj := by
  simp [select_all_deselect, List.get?_eq_getElem?]

theorem select_all_deselect_length (s : Scene) :
    (select_all_deselect s).objects.length = s.objects.length := by
  simp [select_all_deselect]

theorem mem_iff_get? (l : List Obj) (o : Obj) : o ∈ l ↔ ∃ i, l.get? i = some o := by
  induction l with
  | nil => simp
  | cons a rest ih =>
      constructor
      · intro h
        rcases List.mem_cons.mp h with rfl | h2
        · exact ⟨0, rfl⟩
        · obtain ⟨i, hi⟩ := ih.mp h2
          exact ⟨i + 1, hi⟩
      · rintro ⟨i, hi⟩
        cases i with
        | zero =>
            injection hi with hi
            exact hi ▸ List.mem_cons_self a rest
        | succ n => exact List.mem_cons_of_mem a (ih.mpr ⟨n, hi⟩)

/-- The central geometric fact behind C5: translating the mesh by
`[-mean_x(bb), -mean_y(bb), -min_z(bb)]` puts the bounding box's X/Y mean at
the origin and its minimum Z at 0. -/
theorem translateMesh_moveVec_centered (o : Obj) (h : o.data.vertices ≠ []) :
    centered (translateMesh (moveVec o) o) := by
  have hne := get_bounds_ne_nil o h
  unfold centered
  rw [get_bounds_translateMesh (moveVec o) o,
    bbMeanX_map_add _ _ hne, bbMeanY_map_add _ _ hne, bbMinZ_map_add _ _ hne]
  simp [moveVec]

theorem get_bounds_set_selected (o : Obj) (b : Bool) :
    get_bounds { o with selected := b } = get_bounds o := rfl

/-- Trace predicate for C8: the event is not a mesh-transform operator invoked
outside edit mode. -/
def transformInEdit : Event → Prop
  | Event.transformRotate m => m = "EDIT"
  | Event.transformTranslate _ m => m = "EDIT"
  | _ => True

theorem removeXStep_events_edit (s : Scene) (i : Nat) :
    ∀ e ∈ (removeXStep s i).2, transformInEdit e := by
  intro e he
  rw [removeXStep_events] at he
  simp only [List.mem_cons, List.not_mem_nil, or_false] at he
  rcases he with rfl | rfl | rfl | rfl | rfl | rfl <;> simp [transformInEdit]

theorem moveOriginStep_events_edit (s : Scene) (i : Nat) :
    ∀ e ∈ (moveOriginStep s i).2, transformInEdit e := by
  intro e he
  cases h : s.objects.get? i with
  | none =>
      rw [moveOriginStep_none s i h] at he
      simp only [List.mem_cons, List.not_mem_nil, or_false] at he
      rcases he with rfl | rfl | rfl <;> simp [transformInEdit]
  | some o =>
      rw [moveOriginStep_some s i o h] at he
      simp only [List.mem_cons, List.not_mem_nil, or_false] at he
      rcases he with rfl | rfl | rfl | rfl | rfl | rfl <;> simp [transformInEdit]

theorem setPropertiesStep_events_nil (cfg : Config)
    (hflag : cfg.cf_apply_transformation.getD false = false) (s : Scene) (i : Nat) :
    (setPropertiesStep cfg s i).2.1 = [] := by
  cases h : s.objects.get? i with
  | none => unfold setPropertiesStep; rw [h]
  | some o =>
      have h2 : s.objects[i]? = some o := by simpa [List.get?_eq_getElem?] using h
      cases herr : (setCustomProps cfg.add_properties o).2 with
      | some e => simp [setPropertiesStep, h2, herr]
      | none =>
          cases ha : (applyShadingMaterial cfg s.materials
              (setCustomProps cfg.add_properties o).1).2 with
          | some e => simp [setPropertiesStep, h2, herr, ha]
          | none => simp [setPropertiesStep, h2, herr, ha, hflag]

theorem set_properties_events_nil (cfg : Config)
    (hflag : cfg.cf_apply_transformation.getD false = false) :
    ∀ (idxs : List Nat) (s : Scene), (set_properties cfg s idxs).2.1 = [] := by
  intro idxs
  induction idxs with
  | nil => intro s; rfl
  | cons i rest ih =>
      intro s
      simp only [set_properties]
      cases herr : (setPropertiesStep cfg s i).2.2 with
      | some e => simpa using setPropertiesStep_events_nil cfg hflag s i
      | none =>
          simp only
          rw [setPropertiesStep_events_nil cfg hflag s i,
            ih (setPropertiesStep cfg s i).1]
          rfl

theorem setPropertiesStep_err_cases (cfg : Config) (s : Scene) (i : Nat) :
    ∀ e, (setPropertiesStep cfg s i).2.2 = some e → guardMsg e := by
  intro e he
  cases h : s.objects.get? i with
  | none => unfold setPropertiesStep at he; rw [h] at he; cases he
  | some o =>
      have h2 : s.objects[i]? = some o := by simpa [List.get?_eq_getElem?] using h
      cases herr : (setCustomProps cfg.add_properties o).2 with
      | some e2 =>
          rcases setCustomProps_err_cases cfg.add_properties o with hc | hc
          · rw [herr] at hc; cases hc
          · rw [herr] at hc
            injection hc with hc
            simp [setPropertiesStep, h2, herr] at he
            subst he
            exact Or.inl hc
      | none =>
          cases ha : (applyShadingMaterial cfg s.materials
              (setCustomProps cfg.add_properties o).1).2 with
          | some e2 =>
              have hg := applyShadingMaterial_err_cases cfg s.materials
                (setCustomProps cfg.add_properties o).1 e2 ha
              simp [setPropertiesStep, h2, herr, ha] at he
              exact he ▸ hg
          | none =>
              simp [setPropertiesStep, h2, herr, ha] at he
              split_ifs at he

theorem set_properties_err_cases (cfg : Config) :
    ∀ (idxs : List Nat) (s : Scene) (e : String),
      (set_properties cfg s idxs).2.2 = some e → guardMsg e := by
  intro idxs
  induction idxs with
  | nil => intro s e he; cases he
  | cons i rest ih =>
      intro s e he
      simp only [set_properties] at he
      cases hstep : (setPropertiesStep cfg s i).2.2 with
      | some e2 =>
          rw [hstep] at he
          simp only at he
          injection he with he
          exact he ▸ setPropertiesStep_err_cases cfg s i e2 hstep
      | none =>
          rw [hstep] at he
          simp only at he
          exact ih (setPropertiesStep cfg s i).1 e he

/-- C4 (amended): the module's failure handling consists of three guard
exceptions, not two — "material not loaded" raised by `change_material`,
"unknown shading mode" raised by `change_shading_mode`, and the
`RuntimeError` raised by `_set_properties` for an `add_properties` key
without the `"cp_"` prefix.  Every exception escaping `_set_properties` is
one of those three messages, and each of the two named helpers can only fail
with its own guard message; the remaining operations do not raise. -/
theorem C4_failure_guards (cfg : Config) (s : Scene) (idxs : List Nat) (e : String)
    (materials : List String) (objs : List Obj) (mode material_name : String)
    (props : List (String × String)) (o : Obj) :
    ((set_properties cfg s idxs).2.2 = some e → guardMsg e) ∧
    ((change_shading_mode objs mode).2 = none ∨
      (change_shading_mode objs mode).2 = some (shadingErrMsg mode)) ∧
    ((change_material materials objs material_name).2 = none ∨
      (change_material materials objs material_name).2 =
        some (materialErrMsg material_name)) ∧
    ((setCustomProps props o).2 = none ∨ (setCustomProps props o).2 = some propErrMsg) := by
  exact ⟨set_properties_err_cases cfg idxs s e,
    change_shading_mode_err_cases objs mode,
    change_material_err_cases materials objs material_name,
    setCustomProps_err_cases props o⟩

theorem sample_bad_key_err :
    (set_properties (plainCfg [("x", "1")]) sampleScene [0]).2.2 = some propErrMsg := by
  have h := setPropertiesStep_plain_err [("x", "1")] sampleScene 0 sampleObj (by rfl)
  have herr : (setPropertiesStep (plainCfg [("x", "1")]) sampleScene 0).2.2 =
      some propErrMsg := by
    rw [h]; decide
  simp [set_properties, herr]

/-- C4, the claim as frozen, is false: `_set_properties` raises a third
exception (the `RuntimeError` for a key without the `"cp_"` prefix), whose
message is neither of the two guard messages named by the claim. -/
theorem C4_counterexample :
    (set_properties (plainCfg [("x", "1")]) sampleScene [0]).2.2 = some propErrMsg ∧
    strStartsWith propErrMsg "This shading mode is unknown: " = false ∧
    strStartsWith propErrMsg "Material " = false :=
  ⟨sample_bad_key_err, by decide, by decide⟩

theorem C4_witness :
    guardMsg propErrMsg ∧ guardMsg (shadingErrMsg "Gouraud") ∧
    guardMsg (materialErrMsg "wood") := by
  have h := C4_failure_guards (plainCfg [("x", "1")]) sampleScene [0] propErrMsg
    [] [] "Gouraud" "wood" [("x", "1")] sampleObj
  refine ⟨?_, Or.inr (Or.inl ⟨"Gouraud", rfl⟩), Or.inr (Or.inr ⟨"wood", rfl⟩)⟩
  apply h.1
  exact sample_bad_key_err

/- C7. -/

theorem runSteps_length (step : Scene → Nat → Scene × List Event)
    (hstep : ∀ s i, (step s i).1.objects.length = s.objects.length)
    (idxs : List Nat) (s : Scene) :
    (runSteps step s idxs).1.objects.length = s.objects.length := by
  induction idxs generalizing s with
  | nil => rfl
  | cons i rest ih =>
      simp only [runSteps]
      rw [ih (step s i).1, hstep s i]

/-- C7: `apply_transformation_to_objects(objects)` resets, for every object
in `objects`, the `location`, `rotation_euler` and `scale` attributes to their
initial values via the host's `transform_apply` invoked with
`location=True, rotation=True, scale=True`; in `_set_properties` this happens
only when the `cf_apply_transformation` flag (default `False`) is true — with
the flag absent or false, no host operator is invoked at all. -/
theorem C7_apply_transformation (s : Scene) (idxs : List Nat) (i : Nat)
    (cfg : Config) (sc : Scene) (jdxs : List Nat) :
    (i ∈ idxs → i < s.objects.length →
      ∃ o2, (apply_transformation_to_objects s idxs).1.objects.get? i = some o2 ∧
        o2.location = Vec3.zero ∧ o2.rotation_euler = Vec3.zero ∧ o2.scale = Vec3.one) ∧
    (∀ l r sc2 m,
      Event.transformApply l r sc2 m ∈ (apply_transformation_to_objects s idxs).2 →
        l = true ∧ r = true ∧ sc2 = true) ∧
    (cfg.cf_apply_transformation.getD false = false →
      (set_properties cfg sc jdxs).2.1 = []) := by
  refine ⟨?_, ?_, fun hflag => set_properties_events_nil cfg hflag jdxs sc⟩
  · intro hmem hlt
    have hQ := runSteps_Q_estab applyTransformationStep (fun _ _ => True)
      (fun s' j => ∀ o2, s'.objects.get? j = some o2 →
        o2.location = Vec3.zero ∧ o2.rotation_euler = Vec3.zero ∧ o2.scale = Vec3.one)
      (fun _ _ _ _ => trivial)
      (fun s' i' _ => by
        intro o2 h2
        cases hsi : s'.objects.get? i' with
        | none => rw [applyTransformationStep_get?_none s' i' hsi] at h2; cases h2
        | some o0 =>
            rw [applyTransformationStep_get?_self s' i' o0 hsi] at h2
            injection h2 with h2
            subst h2
            exact ⟨rfl, rfl, rfl⟩)
      (fun s' i' j hij hq => by
        intro o2 h2
        rw [applyTransformationStep_get?_other s' i' j hij] at h2
        rcases Option.map_eq_some'.mp h2 with ⟨o0, ho0, rfl⟩
        by_cases hsel : o0.selected = true
        · simp [hsel, resetTransform]
        · simp only [Bool.not_eq_true] at hsel
          simp only [hsel, Bool.false_eq_true, if_false]
          exact hq o0 ho0)
      idxs (select_all_deselect s) i (fun _ => trivial) hmem
    have hlen : (apply_transformation_to_objects s idxs).1.objects.length =
        s.objects.length := by
      unfold apply_transformation_to_objects
      simp only [select_all_deselect_length]
      rw [runSteps_length applyTransformationStep applyTransformationStep_length
        idxs (select_all_deselect s), select_all_deselect_length]
    obtain ⟨o2, ho2⟩ := get?_isSome_of_lt
      (apply_transformation_to_objects s idxs).1.objects i (by rw [hlen]; exact hlt)
    refine ⟨o2, ho2, ?_⟩
    have hfin : (apply_transformation_to_objects s idxs).1.objects.get? i =
        ((runSteps applyTransformationStep (select_all_deselect s) idxs).1.objects.get? i).map
          deselectObj := by
      unfold apply_transformation_to_objects
      simp only
      exact select_all_deselect_get? _ i
    rw [hfin] at ho2
    rcases Option.map_eq_some'.mp ho2 with ⟨o3, ho3, rfl⟩
    have := hQ o3 ho3
    simpa [deselectObj] using this
  · intro l r sc2 m hm
    have hstep : ∀ (s' : Scene) (i' : Nat), ∀ e ∈ (applyTransformationStep s' i').2,
        ∀ l' r' sc' m', e = Event.transformApply l' r' sc' m' →
          l' = true ∧ r' = true ∧ sc' = true := by
      intro s' i' e he
      rw [applyTransformationStep_events] at he
      simp only [List.mem_cons, List.not_mem_nil, or_false] at he
      intro l' r' sc' m' hee
      rcases he with rfl | rfl | rfl | rfl
      · exact absurd hee (by simp)
      · exact absurd hee (by simp)
      · injection hee with h1 h2 h3 h4
        exact ⟨h1.symm, h2.symm, h3.symm⟩
      · exact absurd hee (by simp)
    unfold apply_transformation_to_objects at hm
    simp only at hm
    rcases List.mem_cons.mp hm with hm | hm
    · exact absurd hm (by simp)
    rcases List.mem_append.mp hm with hm | hm
    · exact runSteps_events applyTransformationStep
        (fun e => ∀ l' r' sc' m', e = Event.transformApply l' r' sc' m' →
          l' = true ∧ r' = true ∧ sc' = true)
        hstep idxs (select_all_deselect s) _ hm l r sc2 m rfl
    · simp only [List.mem_singleton] at hm
      exact absurd hm (by simp)

def sampleObjT : Obj :=
  ⟨"objT", true, true, "MESH", ⟨1, 2, 3⟩, ⟨1, 0, 0⟩, ⟨2, 2, 2⟩, true, none, [], sampleMesh⟩

def sampleSceneT : Scene := ⟨[sampleObjT], [], none, "OBJECT"⟩

theorem C7_witness :
    ((apply_transformation_to_objects sampleSceneT [0]).1.objects.headD sampleObjT).location
        = Vec3.zero ∧
    ((apply_transformation_to_objects sampleSceneT [0]).1.objects.headD
        sampleObjT).rotation_euler = Vec3.zero ∧
    ((apply_transformation_to_objects sampleSceneT [0]).1.objects.headD sampleObjT).scale
        = Vec3.one ∧
    (set_properties (plainCfg []) sampleSceneT [0]).2.1 = [] := by
  have h := C7_apply_transformation sampleSceneT [0] 0 (plainCfg []) sampleSceneT [0]
  obtain ⟨o2, ho2, h1, h2, h3⟩ := h.1 (by decide) (by decide)
  have hhead : (apply_transformation_to_objects sampleSceneT [0]).1.objects.headD sampleObjT
      = o2 := by
    have hh : (apply_transformation_to_objects sampleSceneT [0]).1.objects.head? = some o2 :=
      ho2
    simp [List.headD_eq_head?, hh]
  rw [hhead]
  exact ⟨h1, h2, h3, h.2.2 (by decide)⟩

/- C6. -/

/-- C6: `remove_x_axis_rotation(objects)` removes the 90 degree X-axis
rotation introduced when loading `.obj` files by rotating each object's mesh
itself a quarter turn (`pi/2`) about the X axis in edit mode, and afterwards
each object's `rotation_euler` equals `[0, 0, 0]`. -/
theorem C6_remove_x_axis_rotation (s : Scene) (idxs : List Nat) (i : Nat) (o : Obj) :
    (s.objects.get? i = some o →
      (removeXStep s i).1.objects.get? i =
        some { o with rotation_euler := Vec3.zero, selected := false,
                      data := { o.data with
                        vertices := o.data.vertices.map rotateQuarterX } } ∧
      Event.transformRotate "EDIT" ∈ (removeXStep s i).2) ∧
    (i ∈ idxs → i < s.objects.length →
      ∃ o2, (remove_x_axis_rotation s idxs).1.objects.get? i = some o2 ∧
        o2.rotation_euler = Vec3.zero) := by
  constructor
  · intro h
    refine ⟨removeXStep_get?_self s i o h, ?_⟩
    rw [removeXStep_events]
    simp
  · intro hmem hlt
    have hQ := runSteps_Q_estab removeXStep (fun _ _ => True)
      (fun s' j => ∀ o2, s'.objects.get? j = some o2 → o2.rotation_euler = Vec3.zero)
      (fun _ _ _ _ => trivial)
      (fun s' i' _ => by
        intro o2 h2
        cases hsi : s'.objects.get? i' with
        | none => rw [removeXStep_get?_none s' i' hsi] at h2; cases h2
        | some o0 =>
            rw [removeXStep_get?_self s' i' o0 hsi] at h2
            injection h2 with h2
            subst h2
            rfl)
      (fun s' i' j hij hq => by
        intro o2 h2
        rw [removeXStep_get?_other s' i' j hij] at h2
        exact hq o2 h2)
      idxs (select_all_deselect s) i (fun _ => trivial) hmem
    have hlen : (remove_x_axis_rotation s idxs).1.objects.length = s.objects.length := by
      unfold remove_x_axis_rotation
      simp only
      rw [runSteps_length removeXStep removeXStep_length idxs (select_all_deselect s),
        select_all_deselect_length]
    obtain ⟨o2, ho2⟩ := get?_isSome_of_lt (remove_x_axis_rotation s idxs).1.objects i
      (by rw [hlen]; exact hlt)
    exact ⟨o2, ho2, hQ o2 ho2⟩

theorem C6_witness :
    ((removeXStep sampleSceneT 0).1.objects.get? 0 =
      some { sampleObjT with rotation_euler := Vec3.zero, selected := false,
                             data := { sampleObjT.data with
                               vertices := sampleObjT.data.vertices.map rotateQuarterX } } ∧
      Event.transformRotate "EDIT" ∈ (removeXStep sampleSceneT 0).2) ∧
    ((remove_x_axis_rotation sampleSceneT [0]).1.objects.headD sampleObjT).rotation_euler
      = Vec3.zero := by
  have h := C6_remove_x_axis_rotation sampleSceneT [0] 0 sampleObjT
  refine ⟨h.1 (by rfl), ?_⟩
  obtain ⟨o2, ho2, hrot⟩ := h.2 (by decide) (by decide)
  have hhead : (remove_x_axis_rotation sampleSceneT [0]).1.objects.headD sampleObjT = o2 := by
    have hh : (remove_x_axis_rotation sampleSceneT [0]).1.objects.head? = some o2 := ho2
    simp [List.headD_eq_head?, hh]
  rw [hhead]
  exact hrot

/- C5. -/

/-- C5: `move_obj_origin_to_bottom_mean_point(objects)` obtains each object's
bounding box via the external collaborator `get_bounds` and translates the
mesh by `[-mean_x(bb), -mean_y(bb), -min_z(bb)]` in edit mode, so that
afterwards the object's bounding box has its X/Y mean at the origin and its
minimum Z coordinate at 0. -/
theorem C5_move_obj_origin (s : Scene) (idxs : List Nat) (i : Nat) (o : Obj) :
    (s.objects.get? i = some o →
      Event.transformTranslate (moveVec o) "EDIT" ∈ (moveOriginStep s i).2 ∧
      (moveOriginStep s i).1.objects.get? i =
        some { translateMesh (moveVec o) o with selected := false }) ∧
    (i ∈ idxs → i < s.objects.length →
      (∀ o2, s.objects.get? i = some o2 → o2.data.vertices ≠ []) →
      ∃ o2, (move_obj_origin_to_bottom_mean_point s idxs).1.objects.get? i = some o2 ∧
        bbMeanX (get_bounds o2) = 0 ∧ bbMeanY (get_bounds o2) = 0 ∧
        bbMinZ (get_bounds o2) = 0) := by
  constructor
  · intro h
    constructor
    · rw [moveOriginStep_some s i o h]
      simp
    · exact moveOriginStep_get?_self s i o h
  · intro hmem hlt hne
    have hQ := runSteps_Q_estab moveOriginStep (fun _ _ => True)
      (fun s' j => ∀ o2, s'.objects.get? j = some o2 →
        (o2.data.vertices ≠ [] → centered o2))
      (fun _ _ _ _ => trivial)
      (fun s' i' _ => by
        intro o2 h2
        cases hsi : s'.objects.get? i' with
        | none => rw [moveOriginStep_get?_none s' i' hsi] at h2; cases h2
        | some o0 =>
            rw [moveOriginStep_get?_self s' i' o0 hsi] at h2
            injection h2 with h2
            subst h2
            intro hne2
            have hne0 : o0.data.vertices ≠ [] := by
              intro hc
              apply hne2
              show (o0.data.vertices.map (fun v => Vec3.add v (moveVec o0))) = []
              rw [hc]
              rfl
            exact translateMesh_moveVec_centered o0 hne0)
      (fun s' i' j hij hq => by
        intro o2 h2
        rw [moveOriginStep_get?_other s' i' j hij] at h2
        exact hq o2 h2)
      idxs (select_all_deselect s) i (fun _ => trivial) hmem
    have hP := runSteps_preserve moveOriginStep
      (fun s' => ∀ o2, s'.objects.get? i = some o2 → o2.data.vertices ≠ [])
      (fun s' i' hp => by
        intro o2 h2
        by_cases hij : i' = i
        · subst hij
          cases hsi : s'.objects.get? i' with
          | none => rw [moveOriginStep_get?_none s' i' hsi] at h2; cases h2
          | some o0 =>
              rw [moveOriginStep_get?_self s' i' o0 hsi] at h2
              injection h2 with h2
              subst h2
              have hne0 : o0.data.vertices ≠ [] := hp o0 hsi
              intro hc
              apply hne0
              have hc2 : (o0.data.vertices.map (fun v => Vec3.add v (moveVec o0))) = [] := hc
              exact List.map_eq_nil_iff.mp hc2
        · rw [moveOriginStep_get?_other s' i' i hij] at h2
          exact hp o2 h2)
      idxs (select_all_deselect s)
      (by
        intro o2 h2
        rw [select_all_deselect_get? s i] at h2
        rcases Option.map_eq_some'.mp h2 with ⟨o0, ho0, rfl⟩
        exact hne o0 ho0)
    have hlen : (move_obj_origin_to_bottom_mean_point s idxs).1.objects.length =
        s.objects.length := by
      unfold move_obj_origin_to_bottom_mean_point
      simp only
      rw [runSteps_length moveOriginStep moveOriginStep_length idxs (select_all_deselect s),
        select_all_deselect_length]
    obtain ⟨o2, ho2⟩ := get?_isSome_of_lt
      (move_obj_origin_to_bottom_mean_point s idxs).1.objects i (by rw [hlen]; exact hlt)
    exact ⟨o2, ho2, hQ o2 ho2 (hP o2 ho2)⟩

theorem C5_witness :
    Event.transformTranslate (moveVec sampleObj) "EDIT" ∈ (moveOriginStep sampleScene 0).2 ∧
    moveVec sampleObj = ⟨-1, 0, 0⟩ ∧
    bbMeanX (get_bounds
      ((move_obj_origin_to_bottom_mean_point sampleScene [0]).1.objects.headD sampleObj)) = 0 ∧
    bbMinZ (get_bounds
      ((move_obj_origin_to_bottom_mean_point sampleScene [0]).1.objects.headD sampleObj)) = 0 := by
  have h := C5_move_obj_origin sampleScene [0] 0 sampleObj
  obtain ⟨o2, ho2, hx, hy, hz⟩ := h.2 (by decide) (by decide) (by decide)
  have hhead : (move_obj_origin_to_bottom_mean_point sampleScene [0]).1.objects.headD sampleObj
      = o2 := by
    have hh : (move_obj_origin_to_bottom_mean_point sampleScene [0]).1.objects.head? = some o2 :=
      ho2
    simp [List.headD_eq_head?, hh]
  rw [hhead]
  refine ⟨(h.1 (by rfl)).1, ?_, hx, hz⟩
  show Vec3.mk (-(bbMeanX (get_bounds sampleObj))) (-(bbMeanY (get_bounds sampleObj)))
    (-(bbMinZ (get_bounds sampleObj))) = Vec3.mk (-1) 0 0
  have hbb : get_bounds sampleObj =
      [⟨0, 0, 0⟩, ⟨0, 0, 2⟩, ⟨0, 0, 0⟩, ⟨0, 0, 2⟩, ⟨2, 0, 0⟩, ⟨2, 0, 2⟩, ⟨2, 0, 0⟩, ⟨2, 0, 2⟩] := by
    show get_bounds ⟨"obj", true, true, "MESH", Vec3.zero, Vec3.zero, Vec3.one, false, none,
      [], ⟨[⟨0, false⟩], [⟨0, 0, 0⟩, ⟨2, 0, 2⟩]⟩⟩ = _
    simp [get_bounds, qMin, qMax]
  rw [hbb]
  simp [bbMeanX, bbMeanY, bbMinZ, qMin, qMax, Vec3.mk.injEq]
  norm_num

/- C8. -/

theorem runSteps_move_mode :
    ∀ (idxs : List Nat) (s : Scene), idxs ≠ [] →
      (∀ j ∈ idxs, j < s.objects.length) →
      (runSteps moveOriginStep s idxs).1.mode = "OBJECT" := by
  intro idxs
  induction idxs with
  | nil => intro s h; exact absurd rfl h
  | cons i rest ih =>
      intro s _ hvalid
      cases rest with
      | nil =>
          obtain ⟨o, ho⟩ := get?_isSome_of_lt s.objects i (hvalid i (by simp))
          simpa [runSteps] using moveOriginStep_mode_of_some s i o ho
      | cons j rest2 =>
          simp only [runSteps]
          refine ih (moveOriginStep s i).1 (by simp) ?_
          intro j' hj'
          rw [moveOriginStep_length]
          exact hvalid j' (List.mem_cons_of_mem i hj')

/-- C8: in `remove_x_axis_rotation` and `move_obj_origin_to_bottom_mean_point`
every mesh-transform operator (`transform.rotate`, `transform.translate`) is
invoked only while the active object is in `EDIT` mode, and each helper
returns the active object to `OBJECT` mode before moving to the next object
and before returning. -/
theorem C8_edit_mode_discipline (s : Scene) (idxs : List Nat) (i : Nat) (o : Obj) :
    (∀ e ∈ (remove_x_axis_rotation s idxs).2, transformInEdit e) ∧
    (∀ e ∈ (move_obj_origin_to_bottom_mean_point s idxs).2, transformInEdit e) ∧
    (removeXStep s i).1.mode = "OBJECT" ∧
    (s.objects.get? i = some o → (moveOriginStep s i).1.mode = "OBJECT") ∧
    (idxs ≠ [] → (remove_x_axis_rotation s idxs).1.mode = "OBJECT") ∧
    (idxs ≠ [] → (∀ j ∈ idxs, j < s.objects.length) →
      (move_obj_origin_to_bottom_mean_point s idxs).1.mode = "OBJECT") := by
  refine ⟨?_, ?_, removeXStep_mode s i, fun h => moveOriginStep_mode_of_some s i o h,
    ?_, ?_⟩
  · intro e he
    unfold remove_x_axis_rotation at he
    simp only at he
    rcases List.mem_cons.mp he with rfl | he
    · trivial
    rcases List.mem_append.mp he with he | he
    · exact runSteps_events removeXStep transformInEdit removeXStep_events_edit idxs
        (select_all_deselect s) e he
    · simp only [List.mem_singleton] at he
      subst he
      trivial
  · intro e he
    unfold move_obj_origin_to_bottom_mean_point at he
    simp only at he
    rcases List.mem_cons.mp he with rfl | he
    · trivial
    rcases List.mem_append.mp he with he | he
    · exact runSteps_events moveOriginStep transformInEdit moveOriginStep_events_edit idxs
        (select_all_deselect s) e he
    · simp only [List.mem_singleton] at he
      subst he
      trivial
  · intro hne
    unfold remove_x_axis_rotation
    simp only
    exact runSteps_mode removeXStep removeXStep_mode idxs (select_all_deselect s) hne
  · intro hne hvalid
    unfold move_obj_origin_to_bottom_mean_point
    simp only
    refine runSteps_move_mode idxs (select_all_deselect s) hne ?_
    intro j hj
    rw [select_all_deselect_length]
    exact hvalid j hj

theorem C8_witness :
    transformInEdit (Event.transformRotate "EDIT") ∧
    (removeXStep sampleScene 0).1.mode = "OBJECT" ∧
    (moveOriginStep sampleScene 0).1.mode = "OBJECT" ∧
    (remove_x_axis_rotation sampleScene [0]).1.mode = "OBJECT" ∧
    (move_obj_origin_to_bottom_mean_point sampleScene [0]).1.mode = "OBJECT" := by
  have h := C8_edit_mode_discipline sampleScene [0] 0 sampleObj
  refine ⟨?_, h.2.2.1, h.2.2.2.1 (by rfl), h.2.2.2.2.1 (by simp), h.2.2.2.2.2 (by simp)
    (by decide)⟩
  exact h.1 (Event.transformRotate "EDIT") (by decide)

/- C9. -/

theorem removeXStep_deselected (s : Scene) (i : Nat)
    (hall : ∀ j o2, s.objects.get? j = some o2 → o2.selected = false) :
    ∀ j o2, (removeXStep s i).1.objects.get? j = some o2 → o2.selected = false := by
  intro j o2 h2
  by_cases hij : i = j
  · subst hij
    cases hsi : s.objects.get? i with
    | none => rw [removeXStep_get?_none s i hsi] at h2; cases h2
    | some o0 =>
        rw [removeXStep_get?_self s i o0 hsi] at h2
        injection h2 with h2
        subst h2
        rfl
  · rw [removeXStep_get?_other s i j hij] at h2
    exact hall j o2 h2

theorem moveOriginStep_deselected (s : Scene) (i : Nat)
    (hall : ∀ j o2, s.objects.get? j = some o2 → o2.selected = false) :
    ∀ j o2, (moveOriginStep s i).1.objects.get? j = some o2 → o2.selected = false := by
  intro j o2 h2
  by_cases hij : i = j
  · subst hij
    cases hsi : s.objects.get? i with
    | none => rw [moveOriginStep_get?_none s i hsi] at h2; cases h2
    | some o0 =>
        rw [moveOriginStep_get?_self s i o0 hsi] at h2
        injection h2 with h2
        subst h2
        rfl
  · rw [moveOriginStep_get?_other s i j hij] at h2
    exact hall j o2 h2

theorem select_all_deselect_all_deselected (s : Scene) :
    ∀ j o2, (select_all_deselect s).objects.get? j = some o2 → o2.selected = false := by
  intro j o2 h2
  rw [select_all_deselect_get? s j] at h2
  rcases Option.map_eq_some'.mp h2 with ⟨o0, _, rfl⟩
  rfl

/-- C9: each of the three static transform helpers begins by deselecting all
scene objects and, on return, leaves every scene object deselected; each
object of the input list is selected and then deselected again inside the
loop. -/
theorem C9_selection_empty (s : Scene) (idxs : List Nat) (i : Nat) :
    (apply_transformation_to_objects s idxs).2.head? = some (Event.selectAll "DESELECT") ∧
    (remove_x_axis_rotation s idxs).2.head? = some (Event.selectAll "DESELECT") ∧
    (move_obj_origin_to_bottom_mean_point s idxs).2.head? =
      some (Event.selectAll "DESELECT") ∧
    (∀ o2 ∈ (apply_transformation_to_objects s idxs).1.objects, o2.selected = false) ∧
    (∀ o2 ∈ (remove_x_axis_rotation s idxs).1.objects, o2.selected = false) ∧
    (∀ o2 ∈ (move_obj_origin_to_bottom_mean_point s idxs).1.objects,
      o2.selected = false) ∧
    (i ∈ idxs →
      (Event.selectSet i true ∈ (apply_transformation_to_objects s idxs).2 ∧
        Event.selectSet i false ∈ (apply_transformation_to_objects s idxs).2) ∧
      (Event.selectSet i true ∈ (remove_x_axis_rotation s idxs).2 ∧
        Event.selectSet i false ∈ (remove_x_axis_rotation s idxs).2) ∧
      (Event.selectSet i true ∈ (move_obj_origin_to_bottom_mean_point s idxs).2 ∧
        Event.selectSet i false ∈ (move_obj_origin_to_bottom_mean_point s idxs).2)) := by
  refine ⟨rfl, rfl, rfl, ?_, ?_, ?_, ?_⟩
  · intro o2 ho2
    unfold apply_transformation_to_objects at ho2
    simp only [select_all_deselect, List.mem_map] at ho2
    rcases ho2 with ⟨o0, _, rfl⟩
    rfl
  · intro o2 ho2
    obtain ⟨j, hj⟩ := (mem_iff_get? _ o2).mp ho2
    have hfin : (remove_x_axis_rotation s idxs).1 =
        (runSteps removeXStep (select_all_deselect s) idxs).1 := rfl
    rw [hfin] at hj
    exact runSteps_preserve removeXStep
      (fun s' => ∀ j' o3, s'.objects.get? j' = some o3 → o3.selected = false)
      (fun s' i' hp => removeXStep_deselected s' i' hp) idxs (select_all_deselect s)
      (select_all_deselect_all_deselected s) j o2 hj
  · intro o2 ho2
    obtain ⟨j, hj⟩ := (mem_iff_get? _ o2).mp ho2
    have hfin : (move_obj_origin_to_bottom_mean_point s idxs).1 =
        (runSteps moveOriginStep (select_all_deselect s) idxs).1 := rfl
    rw [hfin] at hj
    exact runSteps_preserve moveOriginStep
      (fun s' => ∀ j' o3, s'.objects.get? j' = some o3 → o3.selected = false)
      (fun s' i' hp => moveOriginStep_deselected s' i' hp) idxs (select_all_deselect s)
      (select_all_deselect_all_deselected s) j o2 hj
  · intro hmem
    have h1 := runSteps_events_mem applyTransformationStep
      (fun j => Event.selectSet j true) (fun j => Event.selectSet j false)
      (fun s' i' => by rw [applyTransformationStep_events]; simp)
      idxs (select_all_deselect s) i hmem
    have h2 := runSteps_events_mem removeXStep
      (fun j => Event.selectSet j true) (fun j => Event.selectSet j false)
      (fun s' i' => by rw [removeXStep_events]; simp)
      idxs (select_all_deselect s) i hmem
    have h3 := runSteps_events_mem moveOriginStep
      (fun j => Event.selectSet j true) (fun j => Event.selectSet j false)
      (fun s' i' => moveOriginStep_selectSet_mem s' i')
      idxs (select_all_deselect s) i hmem
    refine ⟨⟨?_, ?_⟩, ⟨?_, ?_⟩, ⟨?_, ?_⟩⟩
    · exact List.mem_cons_of_mem _ (List.mem_append_left _ h1.1)
    · exact List.mem_cons_of_mem _ (List.mem_append_left _ h1.2)
    · exact List.mem_cons_of_mem _ (List.mem_append_left _ h2.1)
    · exact List.mem_cons_of_mem _ (List.mem_append_left _ h2.2)
    · exact List.mem_cons_of_mem _ (List.mem_append_left _ h3.1)
    · exact List.mem_cons_of_mem _ (List.mem_append_left _ h3.2)

theorem C9_witness :
    ((apply_transformation_to_objects sampleSceneT [0]).1.objects.headD sampleObjT).selected
      = false ∧
    ((remove_x_axis_rotation sampleSceneT [0]).1.objects.headD sampleObjT).selected
      = false ∧
    Event.selectSet 0 true ∈ (apply_transformation_to_objects sampleSceneT [0]).2 ∧
    Event.selectSet 0 false ∈ (apply_transformation_to_objects sampleSceneT [0]).2 := by
  have h := C9_selection_empty sampleSceneT [0] 0
  have hm := h.2.2.2.2.2.2 (by decide)
  refine ⟨?_, ?_, hm.1.1, hm.1.2⟩
  · have hlen : (apply_transformation_to_objects sampleSceneT [0]).1.objects.length = 1 := by
      unfold apply_transformation_to_objects
      simp only [select_all_deselect_length]
      rw [runSteps_length applyTransformationStep applyTransformationStep_length
        [0] (select_all_deselect sampleSceneT), select_all_deselect_length]
      rfl
    obtain ⟨o2, ho2⟩ := get?_isSome_of_lt
      (apply_transformation_to_objects sampleSceneT [0]).1.objects 0 (by rw [hlen]; decide)
    have hh : (apply_transformation_to_objects sampleSceneT [0]).1.objects.head? = some o2 :=
      ho2
    rw [show (apply_transformation_to_objects sampleSceneT [0]).1.objects.headD sampleObjT = o2
      by simp [List.headD_eq_head?, hh]]
    exact h.2.2.2.1 o2 ((mem_iff_get? _ o2).mpr ⟨0, ho2⟩)
  · have hlen : (remove_x_axis_rotation sampleSceneT [0]).1.objects.length = 1 := by
      show (runSteps removeXStep (select_all_deselect sampleSceneT) [0]).1.objects.length = 1
      rw [runSteps_length removeXStep removeXStep_length [0]
        (select_all_deselect sampleSceneT), select_all_deselect_length]
      rfl
    obtain ⟨o2, ho2⟩ := get?_isSome_of_lt
      (remove_x_axis_rotation sampleSceneT [0]).1.objects 0 (by rw [hlen]; decide)
    have hh : (remove_x_axis_rotation sampleSceneT [0]).1.objects.head? = some o2 := ho2
    rw [show (remove_x_axis_rotation sampleSceneT [0]).1.objects.headD sampleObjT = o2
      by simp [List.headD_eq_head?, hh]]
    exact h.2.2.2.2.1 o2 ((mem_iff_get? _ o2).mpr ⟨0, ho2⟩)

end LoaderIface
